import Mathlib

/-!
ControllerX: the input translation core.

A shallow embedding of `src/ControllerX/src/main.cpp`.

Conventions of the embedding.

* `DWORD`, `WORD`, `BYTE` values are natural numbers; a cast to `DWORD` or
  `WORD` is an explicit reduction modulo `2^32` or `2^16`.
* `double` values are rationals.  Every floating point operation the program
  performs on a controller snapshot is exact: the operands are integers of at
  most 32 bits, the divisors `32768` and the factors `15`, `80` keep every
  intermediate value a multiple of `2^-15` below `2^32`, well inside the 53
  bit significand.  The constants written with an `f` suffix are the
  single precision values widened to `double`: `0.25f`, `15.0f`, `80.0f` are
  exact and `0.15f` is `5033165 / 2^25`.
* A function that writes through a reference parameter returns the new value
  of that parameter; calls to the operating system are returned as a list of
  `Call`s in program order; `quick_exit` is a constructor of `Run`.
-/

namespace ControllerX

/-! ## Constants of `windows.h` / `winuser.h` / `xinput.h` used by the program -/

def INPUT_MOUSE : Nat := 0
def INPUT_KEYBOARD : Nat := 1

def KEYEVENTF_KEYUP : Nat := 0x0002

def MOUSEEVENTF_MOVE : Nat := 0x0001
def MOUSEEVENTF_LEFTDOWN : Nat := 0x0002
def MOUSEEVENTF_LEFTUP : Nat := 0x0004
def MOUSEEVENTF_RIGHTDOWN : Nat := 0x0008
def MOUSEEVENTF_RIGHTUP : Nat := 0x0010
def MOUSEEVENTF_MIDDLEDOWN : Nat := 0x0020
def MOUSEEVENTF_MIDDLEUP : Nat := 0x0040
def MOUSEEVENTF_WHEEL : Nat := 0x0800
def MOUSEEVENTF_HWHEEL : Nat := 0x1000

def VK_TAB : Nat := 0x09
def VK_RETURN : Nat := 0x0D
def VK_CONTROL : Nat := 0x11
def VK_MENU : Nat := 0x12
def VK_ESCAPE : Nat := 0x1B
def VK_SPACE : Nat := 0x20
def VK_LEFT : Nat := 0x25
def VK_UP : Nat := 0x26
def VK_RIGHT : Nat := 0x27
def VK_DOWN : Nat := 0x28
def VK_LWIN : Nat := 0x5B
def VK_VOLUME_DOWN : Nat := 0xAE
def VK_VOLUME_UP : Nat := 0xAF
def VK_MEDIA_NEXT_TRACK : Nat := 0xB0
def VK_MEDIA_PREV_TRACK : Nat := 0xB1
def VK_MEDIA_PLAY_PAUSE : Nat := 0xB3

/-- Cast to `DWORD` (32 bit unsigned). -/
def toDWORD (n : Nat) : Nat := n % 4294967296

/-- Cast to `WORD` (16 bit unsigned). -/
def toWORD (n : Nat) : Nat := n % 65536

/-! ## Constants of `main.cpp` (lines 7-61) -/

def SHORT_RANGE : ℚ := 32768
def TRIGGER_RANGE : Nat := 255

/-- The `double` holding `0.15f`: the single precision number nearest to 0.15. -/
def analog_stick_deadzone : ℚ := 5033165 / 33554432
def mouse_move_sensitivity : ℚ := 15
def mouse_scroll_sensitivity : ℚ := 80
def trigger_sensitivity : ℚ := 1 / 4

namespace KEYBOARD_BUTTON
def UP : Nat := VK_UP
def DOWN : Nat := VK_DOWN
def LEFT : Nat := VK_LEFT
def RIGHT : Nat := VK_RIGHT
def WINDOWS : Nat := VK_LWIN
def TAB : Nat := VK_TAB
def ENTER : Nat := VK_RETURN
def CTRL : Nat := VK_CONTROL
def ESC : Nat := VK_ESCAPE
def ALT : Nat := VK_MENU
def SPACE : Nat := VK_SPACE
def VOL_UP : Nat := VK_VOLUME_UP
def VOL_DOWN : Nat := VK_VOLUME_DOWN
def MEDIA_PLAY_PAUSE : Nat := VK_MEDIA_PLAY_PAUSE
def MEDIA_NEXT : Nat := VK_MEDIA_NEXT_TRACK
def MEDIA_PREVIOUS : Nat := VK_MEDIA_PREV_TRACK
end KEYBOARD_BUTTON

namespace GAMEPAD_BUTTON
def UP : Nat := 1
def DOWN : Nat := 2
def LEFT : Nat := 4
def RIGHT : Nat := 8
def ESCAPE : Nat := 16
def START : Nat := 32
def LEFT_STICK : Nat := 64
def RIGHT_STICK : Nat := 128
def LEFT_SHOULDER : Nat := 256
def RIGHT_SHOULDER : Nat := 512
def A : Nat := 4096
def B : Nat := 8192
def X : Nat := 16384
def Y : Nat := 32768
end GAMEPAD_BUTTON

/-! ## The `INPUT` record handed to `SendInput` -/

/-- One `INPUT` entry.  `mi` and `ki` are members of one union, so the record
keeps the storage they share as 32 bit words:
`w0` is `mi.dx` and holds `ki.wVk` in its low and `ki.wScan` in its high half,
`w1` is `mi.dy` and `ki.dwFlags`, `w2` is `mi.mouseData` and `ki.time`,
`w3` is `mi.dwFlags`. -/
structure INPUT where
  type : Nat
  w0 : Nat
  w1 : Nat
  w2 : Nat
  w3 : Nat
deriving DecidableEq, Repr

namespace INPUT

/-- An entry after `ZeroMemory`. -/
def zero : INPUT := ⟨0, 0, 0, 0, 0⟩

def ki_wVk (i : INPUT) : Nat := i.w0 % 65536
def ki_dwFlags (i : INPUT) : Nat := i.w1
def mi_dx (i : INPUT) : Nat := i.w0
def mi_dy (i : INPUT) : Nat := i.w1
def mi_mouseData (i : INPUT) : Nat := i.w2
def mi_dwFlags (i : INPUT) : Nat := i.w3

/-- Assignment `i.type = t`. -/
def set_type (i : INPUT) (t : Nat) : INPUT := { i with type := t }
/-- Assignment `i.ki.wVk = v`, a `WORD` store into the low half of `w0`. -/
def set_ki_wVk (i : INPUT) (v : Nat) : INPUT :=
  { i with w0 := i.w0 / 65536 * 65536 + toWORD v }
/-- Assignment `i.ki.dwFlags = f`. -/
def set_ki_dwFlags (i : INPUT) (f : Nat) : INPUT := { i with w1 := toDWORD f }
/-- Assignment `i.mi.mouseData = d`. -/
def set_mi_mouseData (i : INPUT) (d : Nat) : INPUT := { i with w2 := toDWORD d }
/-- Assignment `i.mi.dwFlags = f`. -/
def set_mi_dwFlags (i : INPUT) (f : Nat) : INPUT := { i with w3 := toDWORD f }

end INPUT

/-- What a synthesized event acts on. -/
inductive Target
  | key (wVk : Nat)
  | mouse_left
  | mouse_right
  | mouse_middle
deriving DecidableEq, Repr

/-- The actions `SendInput` performs. -/
inductive Action
  | down (t : Target)
  | up (t : Target)
  | move (dx dy : Nat)
  | wheel (mouseData : Nat)
  | hwheel (mouseData : Nat)
  | other (type flags : Nat)
deriving DecidableEq, Repr

/-- The actions one `INPUT` entry carries, as `SendInput` reads it: a keyboard
entry presses or releases `ki.wVk` according to `KEYEVENTF_KEYUP`; a mouse
entry performs one action for every bit set in `mi.dwFlags`, and `mi.dx`,
`mi.dy` are read only under `MOUSEEVENTF_MOVE`.  A mouse entry with
`mi.dwFlags = 0`, in particular an all-zero entry, carries no action. -/
def INPUT.actions (i : INPUT) : List Action :=
  if i.type = INPUT_KEYBOARD then
    if i.ki_dwFlags = 0 then [Action.down (Target.key i.ki_wVk)]
    else if i.ki_dwFlags = KEYEVENTF_KEYUP then [Action.up (Target.key i.ki_wVk)]
    else [Action.other i.type i.ki_dwFlags]
  else if i.type = INPUT_MOUSE then
    (if i.mi_dwFlags.testBit 0 then [Action.move i.mi_dx i.mi_dy] else []) ++
    (if i.mi_dwFlags.testBit 1 then [Action.down Target.mouse_left] else []) ++
    (if i.mi_dwFlags.testBit 2 then [Action.up Target.mouse_left] else []) ++
    (if i.mi_dwFlags.testBit 3 then [Action.down Target.mouse_right] else []) ++
    (if i.mi_dwFlags.testBit 4 then [Action.up Target.mouse_right] else []) ++
    (if i.mi_dwFlags.testBit 5 then [Action.down Target.mouse_middle] else []) ++
    (if i.mi_dwFlags.testBit 6 then [Action.up Target.mouse_middle] else []) ++
    (if i.mi_dwFlags.testBit 11 then [Action.wheel i.mi_mouseData] else []) ++
    (if i.mi_dwFlags.testBit 12 then [Action.hwheel i.mi_mouseData] else [])
  else [Action.other i.type 0]

/-- A call into the operating system that produces output. -/
inductive Call
  | SendInput (inputs : List INPUT)
  | SetCursorPos (x y : Int)
deriving DecidableEq, Repr

/-- The actions of the entries of one `SendInput` batch, in order. -/
def batch_actions : List INPUT → List Action
  | [] => []
  | i :: rest => i.actions ++ batch_actions rest

/-- The events a list of calls injects: the actions of every entry of every
`SendInput` batch, in order. -/
def events : List Call → List Action
  | [] => []
  | Call.SendInput inputs :: cs => batch_actions inputs ++ events cs
  | Call.SetCursorPos _ _ :: cs => events cs

/-- Outcome of running a piece of the program that may call `quick_exit`:
either it returns with a result, or the process ends with a status; both
carry the calls made until then. -/
inductive Run (α : Type)
  | returns (a : α) (calls : List Call)
  | quick_exit (status : Int) (calls : List Call)
deriving DecidableEq, Repr

/-! ## `simulate_keyboard` (lines 205-307) -/

/-- The body of `simulate_keyboard`; the result is the new `button_buffer`.
`send` is the code after the `switch` (lines 302-306), reached from every
case but `ESCAPE`: the buffer assignment and the `SendInput` call. -/
def simulate_keyboard (button : Nat) (button_buffer : Nat) : Run Nat :=
  if toDWORD button = button_buffer then Run.returns button_buffer []
  else
    let inputs0 := INPUT.zero
    let inputs1 := INPUT.zero
    let inputs0 := inputs0.set_type INPUT_KEYBOARD
    let inputs1 := inputs1.set_type INPUT_KEYBOARD
    let inputs1 := inputs1.set_ki_dwFlags KEYEVENTF_KEYUP
    let send (i0 i1 : INPUT) : Run Nat :=
      Run.returns (toDWORD button) [Call.SendInput [i0, i1]]
    if button = GAMEPAD_BUTTON.UP then
      send (inputs0.set_ki_wVk KEYBOARD_BUTTON.UP) (inputs1.set_ki_wVk KEYBOARD_BUTTON.UP)
    else if button = GAMEPAD_BUTTON.DOWN then
      send (inputs0.set_ki_wVk KEYBOARD_BUTTON.DOWN) (inputs1.set_ki_wVk KEYBOARD_BUTTON.DOWN)
    else if button = GAMEPAD_BUTTON.LEFT then
      send (inputs0.set_ki_wVk KEYBOARD_BUTTON.LEFT) (inputs1.set_ki_wVk KEYBOARD_BUTTON.LEFT)
    else if button = GAMEPAD_BUTTON.RIGHT then
      send (inputs0.set_ki_wVk KEYBOARD_BUTTON.RIGHT) (inputs1.set_ki_wVk KEYBOARD_BUTTON.RIGHT)
    else if button = GAMEPAD_BUTTON.ESCAPE then
      Run.quick_exit 0 []
    else if button = GAMEPAD_BUTTON.START then
      send (inputs0.set_ki_wVk KEYBOARD_BUTTON.WINDOWS) (inputs1.set_ki_wVk KEYBOARD_BUTTON.WINDOWS)
    else if button = GAMEPAD_BUTTON.LEFT_STICK then
      send (inputs0.set_ki_wVk KEYBOARD_BUTTON.MEDIA_PLAY_PAUSE)
        (inputs1.set_ki_wVk KEYBOARD_BUTTON.MEDIA_PLAY_PAUSE)
    else if button = GAMEPAD_BUTTON.RIGHT_STICK then
      send ((inputs0.set_type INPUT_MOUSE).set_mi_dwFlags MOUSEEVENTF_MIDDLEDOWN)
        ((inputs1.set_type INPUT_MOUSE).set_mi_dwFlags MOUSEEVENTF_MIDDLEUP)
    else if button = GAMEPAD_BUTTON.LEFT_SHOULDER then
      send (inputs0.set_ki_wVk KEYBOARD_BUTTON.MEDIA_PREVIOUS)
        (inputs1.set_ki_wVk KEYBOARD_BUTTON.MEDIA_PREVIOUS)
    else if button = GAMEPAD_BUTTON.RIGHT_SHOULDER then
      send (inputs0.set_ki_wVk KEYBOARD_BUTTON.MEDIA_NEXT) (inputs1.set_ki_wVk KEYBOARD_BUTTON.MEDIA_NEXT)
    else if button = GAMEPAD_BUTTON.A then
      send (inputs0.set_ki_wVk KEYBOARD_BUTTON.VOL_DOWN) (inputs1.set_ki_wVk KEYBOARD_BUTTON.VOL_DOWN)
    else if button = GAMEPAD_BUTTON.B then
      send (inputs0.set_ki_wVk KEYBOARD_BUTTON.ESC) (inputs1.set_ki_wVk KEYBOARD_BUTTON.ESC)
    else if button = GAMEPAD_BUTTON.X then
      send (inputs0.set_ki_wVk KEYBOARD_BUTTON.ALT) (inputs1.set_ki_wVk KEYBOARD_BUTTON.ALT)
    else if button = GAMEPAD_BUTTON.Y then
      send (inputs0.set_ki_wVk KEYBOARD_BUTTON.VOL_UP) (inputs1.set_ki_wVk KEYBOARD_BUTTON.VOL_UP)
    else
      send inputs0 inputs1

/-- The calls made by a run. -/
def Run.calls {α : Type} : Run α → List Call
  | Run.returns _ cs => cs
  | Run.quick_exit _ cs => cs

/-! ## `simulate_mouse_movement` and `simulate_mouse_scroll` (lines 309-367) -/

/-- A `POINT` of `windows.h`. -/
structure POINT where
  x : Int
  y : Int
deriving DecidableEq, Repr

/-- The least value of `int` and of `LONG` (32 bit). -/
def INT_MIN : Int := -2147483648

/-- The greatest value of `int` and of `LONG` (32 bit). -/
def INT_MAX : Int := 2147483647

/-- The integer is a value of the 32 bit types `int` and `LONG`. -/
def fits_int (z : Int) : Prop := INT_MIN ≤ z ∧ z ≤ INT_MAX

instance (z : Int) : Decidable (fits_int z) := by
  unfold fits_int; infer_instance

/-- The cast `(int)d` of a `double`: truncation toward zero.  The language
defines the cast only when the truncated value fits `int`; the result here is
the truncated value itself, which is the value of the cast exactly when
`fits_int` holds of it.  A statement about a coordinate that
`simulate_mouse_movement` computes and passes to `SetCursorPos` therefore
carries `fits_int` of that coordinate, and of the `LONG` pointer coordinates
read, as a hypothesis. -/
def double_to_int (d : ℚ) : Int := if 0 ≤ d then ⌊d⌋ else ⌈d⌉

/-- The cast `(DWORD)d` of a `double`: truncation toward zero, kept as a 32 bit
unsigned value.  For a negative `d` this is the two's complement of the
truncated value, which is what the conversion compiled by MSVC yields (the
C++ standard leaves that case open). -/
def double_to_DWORD (d : ℚ) : Nat := (double_to_int d % 4294967296).toNat

/-- The deadzone test `abs(a / SHORT_RANGE) > analog_stick_deadzone` of lines
324, 326, 346, 348 (`abs` is the `double` overload). -/
def out_deadzone (a : ℚ) : Bool := decide (|a / SHORT_RANGE| > analog_stick_deadzone)

/-- The body of `simulate_mouse_movement`; `point` is what `GetCursorPos` stores. -/
def simulate_mouse_movement (point : POINT) (x y : ℚ) : List Call :=
  let current_x : ℚ := point.x
  let current_y : ℚ := point.y
  let out_deadzone_x := out_deadzone x
  let out_deadzone_y := out_deadzone y
  let current_x := if out_deadzone_x then current_x + x / SHORT_RANGE * mouse_move_sensitivity
    else current_x
  let current_y := if out_deadzone_y then current_y - y / SHORT_RANGE * mouse_move_sensitivity
    else current_y
  if out_deadzone_x || out_deadzone_y then
    [Call.SetCursorPos (double_to_int current_x) (double_to_int current_y)]
  else []

/-- The body of `simulate_mouse_scroll`. -/
def simulate_mouse_scroll (x y : ℚ) : List Call :=
  let inputs0 := INPUT.zero
  let inputs1 := INPUT.zero
  let out_deadzone_x := out_deadzone x
  let out_deadzone_y := out_deadzone y
  let inputs0 :=
    if out_deadzone_x then
      ((inputs0.set_type INPUT_MOUSE).set_mi_mouseData
        (double_to_DWORD (x / SHORT_RANGE * mouse_scroll_sensitivity))).set_mi_dwFlags MOUSEEVENTF_WHEEL
    else inputs0
  let inputs1 :=
    if out_deadzone_y then
      ((inputs1.set_type INPUT_MOUSE).set_mi_mouseData
        (double_to_DWORD (y / SHORT_RANGE * mouse_scroll_sensitivity))).set_mi_dwFlags MOUSEEVENTF_HWHEEL
    else inputs1
  [Call.SendInput [inputs0, inputs1]]

/-! ## `simulate_left_mouse` and `simulate_right_mouse` (lines 369-433) -/

/-- The test `(double)(trigger / TRIGGER_RANGE) >= trigger_sensitivity` of lines
376 and 409; the division is the unsigned integer division of a `DWORD` by
`255`, converted to `double` afterwards. -/
def trigger_activated (trigger : Nat) : Bool :=
  decide (((trigger / TRIGGER_RANGE : Nat) : ℚ) ≥ trigger_sensitivity)

/-- The body of `simulate_left_mouse`; the result is the new
`right_trigger_buffer` and the calls made. -/
def simulate_left_mouse (trigger : Nat) (right_trigger_buffer : Nat) : Nat × List Call :=
  let inputs0 := INPUT.zero
  let inputs1 := INPUT.zero
  if trigger_activated trigger then
    if right_trigger_buffer = 1 then (right_trigger_buffer, [])
    else
      let inputs0 := (inputs0.set_type INPUT_MOUSE).set_mi_dwFlags MOUSEEVENTF_LEFTDOWN
      (1, [Call.SendInput [inputs0, inputs1]])
  else
    if right_trigger_buffer = 2 then (right_trigger_buffer, [])
    else
      let inputs1 := (inputs1.set_type INPUT_MOUSE).set_mi_dwFlags MOUSEEVENTF_LEFTUP
      (2, [Call.SendInput [inputs0, inputs1]])

/-- The body of `simulate_right_mouse`; the result is the new
`left_trigger_buffer` and the calls made. -/
def simulate_right_mouse (trigger : Nat) (left_trigger_buffer : Nat) : Nat × List Call :=
  let inputs0 := INPUT.zero
  let inputs1 := INPUT.zero
  if trigger_activated trigger then
    if left_trigger_buffer = 1 then (left_trigger_buffer, [])
    else
      let inputs0 := (inputs0.set_type INPUT_MOUSE).set_mi_dwFlags MOUSEEVENTF_RIGHTDOWN
      (1, [Call.SendInput [inputs0, inputs1]])
  else
    if left_trigger_buffer = 2 then (left_trigger_buffer, [])
    else
      let inputs1 := (inputs1.set_type INPUT_MOUSE).set_mi_dwFlags MOUSEEVENTF_RIGHTUP
      (2, [Call.SendInput [inputs0, inputs1]])

/-! ## The polling branch of `main` (lines 133-137 and 179-191) -/

/-- The `XINPUT_GAMEPAD` part of a controller snapshot: a `WORD` of buttons,
two `BYTE` triggers, four `SHORT` stick axes. -/
structure XINPUT_GAMEPAD where
  wButtons : Nat
  bLeftTrigger : Nat
  bRightTrigger : Nat
  sThumbLX : Int
  sThumbLY : Int
  sThumbRX : Int
  sThumbRY : Int
deriving DecidableEq, Repr

/-- The value ranges of the fields of a snapshot. -/
def XINPUT_GAMEPAD.valid (pad : XINPUT_GAMEPAD) : Prop :=
  pad.wButtons < 65536 ∧ pad.bLeftTrigger < 256 ∧ pad.bRightTrigger < 256 ∧
  (-32768 ≤ pad.sThumbLX ∧ pad.sThumbLX ≤ 32767) ∧ (-32768 ≤ pad.sThumbLY ∧ pad.sThumbLY ≤ 32767) ∧
  (-32768 ≤ pad.sThumbRX ∧ pad.sThumbRX ≤ 32767) ∧ (-32768 ≤ pad.sThumbRY ∧ pad.sThumbRY ≤ 32767)

instance (pad : XINPUT_GAMEPAD) : Decidable pad.valid := by
  unfold XINPUT_GAMEPAD.valid; infer_instance

/-- The three edge buffers `main` owns. -/
structure Buffers where
  button_buffer : Nat
  right_trigger_buffer : Nat
  left_trigger_buffer : Nat
deriving DecidableEq, Repr

/-- The buffers as `main` initialises them (lines 133-137). -/
def Buffers.initial : Buffers := ⟨0, 2, 2⟩

/-- The five translator calls of one iteration with a connected controller
(lines 181-187); `point` is the pointer position `GetCursorPos` reports. -/
def main_connected (pad : XINPUT_GAMEPAD) (point : POINT) (s : Buffers) : Run Buffers :=
  match simulate_keyboard pad.wButtons s.button_buffer with
  | Run.quick_exit status calls => Run.quick_exit status calls
  | Run.returns button_buffer c1 =>
    let c2 := simulate_mouse_movement point pad.sThumbRX pad.sThumbRY
    let c3 := simulate_mouse_scroll pad.sThumbLX pad.sThumbLY
    let r4 := simulate_left_mouse pad.bRightTrigger s.right_trigger_buffer
    let r5 := simulate_right_mouse pad.bLeftTrigger s.left_trigger_buffer
    Run.returns ⟨button_buffer, r4.1, r5.1⟩ (c1 ++ c2 ++ c3 ++ r4.2 ++ r5.2)

/-- Buffer states `main` can be in at the top of its loop: the initial one and
every one left by an iteration that returned. -/
inductive Reachable : Buffers → Prop
  | initial : Reachable Buffers.initial
  | poll {s s1 : Buffers} {calls : List Call} (pad : XINPUT_GAMEPAD) (point : POINT) :
      Reachable s → pad.valid → main_connected pad point s = Run.returns s1 calls → Reachable s1

/-! ## Sequences of polls seen by one translator -/

/-- The calls made at each poll when one trigger translator `sim` is fed the
magnitudes of successive polls, starting with buffer `buf`. -/
def trigger_polls (sim : Nat → Nat → Nat × List Call) : Nat → List Nat → List (List Call)
  | _, [] => []
  | buf, t :: ts => (sim t buf).2 :: trigger_polls sim (sim t buf).1 ts

/-- The calls made by `simulate_keyboard` over the button masks of successive
polls, starting with buffer `buf`; nothing follows a `quick_exit`. -/
def keyboard_polls : Nat → List Nat → List Call
  | _, [] => []
  | buf, m :: ms =>
    match simulate_keyboard m buf with
    | Run.returns buf1 calls => calls ++ keyboard_polls buf1 ms
    | Run.quick_exit _ calls => calls

/-- Number of presses of `t` not yet released after a stream of actions. -/
def outstanding (t : Target) : List Action → Int
  | [] => 0
  | Action.down u :: rest => (if u = t then 1 else 0) + outstanding t rest
  | Action.up u :: rest => (if u = t then -1 else 0) + outstanding t rest
  | _ :: rest => outstanding t rest

/-- Modelled on the wording of the keymap: the target each single button other
than the escape button is mapped to (1 Up arrow, 2 Down arrow, 4 Left arrow,
8 Right arrow, 32 Left Windows key, 64 Media play/pause, 128 mouse middle
button, 256 Media previous, 512 Media next, 4096 Volume down, 8192 Esc,
16384 Alt, 32768 Volume up). -/
def spec_keymap (m : Nat) : Option Target :=
  if m = 1 then some (Target.key VK_UP)
  else if m = 2 then some (Target.key VK_DOWN)
  else if m = 4 then some (Target.key VK_LEFT)
  else if m = 8 then some (Target.key VK_RIGHT)
  else if m = 32 then some (Target.key VK_LWIN)
  else if m = 64 then some (Target.key VK_MEDIA_PLAY_PAUSE)
  else if m = 128 then some Target.mouse_middle
  else if m = 256 then some (Target.key VK_MEDIA_PREV_TRACK)
  else if m = 512 then some (Target.key VK_MEDIA_NEXT_TRACK)
  else if m = 4096 then some (Target.key VK_VOLUME_DOWN)
  else if m = 8192 then some (Target.key VK_ESCAPE)
  else if m = 16384 then some (Target.key VK_MENU)
  else if m = 32768 then some (Target.key VK_VOLUME_UP)
  else none

/-- Modelled on the wording of the trigger contract: what the translator of
mouse button `t` emits at a poll, from the activated status at the previous
poll and at this poll: nothing when the status is the same, one press when
the trigger became activated, one release when it became not activated. -/
def spec_edge (t : Target) (prev now : Bool) : List Action :=
  if now = prev then [] else if now then [Action.down t] else [Action.up t]

/-- The trigger buffer value standing for a status: 1 is down, 2 is up. -/
def status_buffer (activated : Bool) : Nat := if activated then 1 else 2

/-- The wheel tick count of the scroll contract for an axis value `v`:
`80 * v / 32768` truncated toward zero, as a 32 bit value (a negative count
modulo `2^32`). -/
def spec_ticks (v : Int) : Nat := ((80 * v).tdiv 32768 % 4294967296).toNat

/-! ## The console: `print_keymap`, `print_spec`, `command_help`, `process_command` (lines 435-506) -/

/-- What the program does on its console: the calls that change it and the
operands of `std::cout <<` in the order written (`cout` a string literal,
`cout_double` a `double`, `endl`), and the wait `std::cin.get()`. -/
inductive Console
  | SetConsoleTextAttribute (attr : Nat)
  | system_cls
  | cout (s : String)
  | cout_double (d : ℚ)
  | endl
  | cin_get
deriving DecidableEq, Repr

/-- Outcome of a piece of console code that may call `quick_exit`. -/
inductive Ran (α : Type)
  | returns (a : α) (console : List Console)
  | quick_exit (status : Int) (console : List Console)
deriving DecidableEq, Repr

/-- The console output of a piece of console code. -/
def Ran.console {α : Type} : Ran α → List Console
  | Ran.returns _ c => c
  | Ran.quick_exit _ c => c

/-- The body of `print_keymap`. -/
def print_keymap : List Console :=
  [Console.SetConsoleTextAttribute 7,
   Console.cout "   ---------------- Current Keymaps -----------------   ", Console.endl,
   Console.cout "  |          Left Stick   ---   Mouse Movement      |  ", Console.endl,
   Console.cout "  |         Right Stick   ---   Mouse Scroll        |  ", Console.endl,
   Console.cout "  |        Left Trigger   ---   Right Mouse Click   |  ", Console.endl,
   Console.cout "  |       Right Trigger   ---   Left Mouse Click    |  ", Console.endl,
   Console.cout "  |       Left Shoulder   ---   Media Previous      |  ", Console.endl,
   Console.cout "  |      Right Shoulder   ---   Media Next          |  ", Console.endl,
   Console.cout "  |   Left Stick Button   ---   Media Play/Pause    |  ", Console.endl,
   Console.cout "  |  Right Stick Button   ---   Middle Mouse Click  |  ", Console.endl,
   Console.cout "  |            D-Pad Up   ---   Up Arrow Key        |  ", Console.endl,
   Console.cout "  |          D-Pad Down   ---   Down Arrow Key      |  ", Console.endl,
   Console.cout "  |          D-Pad Left   ---   Left Arrow Key      |  ", Console.endl,
   Console.cout "  |         D-Pad Right   ---   Right Arrow Key     |  ", Console.endl,
   Console.cout "  |                   A   ---   Volume Down         |  ", Console.endl,
   Console.cout "  |                   B   ---   Esc                 |  ", Console.endl,
   Console.cout "  |                   X   ---   Alt                 |  ", Console.endl,
   Console.cout "  |                   Y   ---   Volume Up           |  ", Console.endl,
   Console.cout "  |                Back   ---   Windows Start Menu  |  ", Console.endl,
   Console.cout "  |               Start   ---   Exit Controllerx    |  ", Console.endl,
   Console.cout "   -------------------------------------------------   ", Console.endl]

/-- The body of `print_spec`. -/
def print_spec : List Console :=
  [Console.cout "  Analog Stick Deadzone: ", Console.cout_double analog_stick_deadzone, Console.endl,
   Console.cout "  Mouse Move Sensitivity: ", Console.cout_double mouse_move_sensitivity, Console.endl,
   Console.cout "  Mouse Scroll Sensitivity: ", Console.cout_double mouse_scroll_sensitivity,
   Console.endl]

/-- The body of `command_help`. -/
def command_help : List Console :=
  [Console.cout "  Available commands:", Console.endl,
   Console.cout "> exit_command: Exit command mode.  ", Console.endl,
   Console.cout "> print_keymap: Print current controller to mouse/keyboard map.  ", Console.endl,
   Console.cout "> print_spec: Print current controller specification.", Console.endl,
   Console.cout "> exit: Exit ControllerX.  ", Console.endl]

/-- The body of `process_command`. -/
def process_command (command : String) : Ran Unit :=
  let first := [Console.cout "", Console.endl]
  let last := [Console.cout "", Console.endl]
  if command = "help" then Ran.returns () (first ++ command_help ++ last)
  else if command = "print_keymap" then Ran.returns () (first ++ print_keymap ++ last)
  else if command = "print_spec" then Ran.returns () (first ++ print_spec ++ last)
  else if command = "exit_command" then Ran.returns () first
  else if command = "exit" then Ran.quick_exit 0 first
  else Ran.returns () (first ++ [Console.cout "  Command not found.  ", Console.endl] ++ last)

/-! ## The loop of `main` (lines 139-203) -/

/-- The variables of `main` that live across iterations. -/
structure LoopState where
  buffers : Buffers
  is_command_mode : Bool
deriving DecidableEq, Repr

/-- The state `main` enters its loop with (lines 133-139). -/
def LoopState.initial : LoopState := ⟨Buffers.initial, false⟩

/-- What one iteration reads from its environment: whether
`GetKeyState(VK_F1) & 0x8000` is set, the token `std::cin >> command` delivers
when it is executed, the snapshot `XInputGetState` stores when it returns
`ERROR_SUCCESS` (`none` when it does not), and the pointer position
`GetCursorPos` reports. -/
structure LoopInput where
  f1_down : Bool
  command : String
  poll : Option XINPUT_GAMEPAD
  point : POINT

/-- The block `if (GetKeyState(VK_F1) & 0x8000)` (lines 146-158): the new
`is_command_mode` and the console output. -/
def main_f1 (f1_down : Bool) (is_command_mode : Bool) : Bool × List Console :=
  if f1_down then
    (true,
     [Console.system_cls, Console.SetConsoleTextAttribute 7,
      Console.cout "\n  Waiting for command...", Console.endl,
      Console.cout "  Type \"help\" for the list of available commands.  \n", Console.endl,
      Console.cout "> "])
  else (is_command_mode, [])

/-- The body of `if (is_command_mode)` (lines 163-175): the new
`is_command_mode` and the console output. -/
def main_command (command : String) : Ran Bool :=
  match process_command command with
  | Ran.quick_exit status c => Ran.quick_exit status ([Console.system_cls] ++ c)
  | Ran.returns _ c =>
    Ran.returns false
      ([Console.system_cls] ++ c ++
       [Console.SetConsoleTextAttribute 4, Console.cout "  Command mode exitted.  ", Console.endl,
        Console.SetConsoleTextAttribute 7,
        Console.cout "  Press F1 to enter command mode again.  \n", Console.endl])

/-- How one iteration of the loop ends: the loop goes on with a new state, the
process ends inside `quick_exit`, or the loop is left by `break` and `main`
returns.  Each carries the console output and the input calls made. -/
inductive Step
  | continues (s : LoopState) (console : List Console) (calls : List Call)
  | quick_exit (status : Int) (console : List Console) (calls : List Call)
  | main_return (status : Int) (buffers : Buffers) (console : List Console) (calls : List Call)

/-- One iteration of `while (true)` (lines 143-200). -/
def main_iteration (i : LoopInput) (s : LoopState) : Step :=
  let r1 := main_f1 i.f1_down s.is_command_mode
  let r2 : Ran Bool := if r1.1 then main_command i.command else Ran.returns r1.1 []
  match r2 with
  | Ran.quick_exit status c2 => Step.quick_exit status (r1.2 ++ c2) []
  | Ran.returns is_command_mode c2 =>
    match i.poll with
    | some pad =>
      match main_connected pad i.point s.buffers with
      | Run.returns buffers calls => Step.continues ⟨buffers, is_command_mode⟩ (r1.2 ++ c2) calls
      | Run.quick_exit status calls => Step.quick_exit status (r1.2 ++ c2) calls
    | none =>
      Step.main_return 0 s.buffers
        (r1.2 ++ c2 ++
         [Console.SetConsoleTextAttribute 4,
          Console.cout "\n  Error: Controller not connected  \n", Console.endl, Console.cin_get])
        []

/-- The exit code of the program when it ends within the iterations whose
inputs are given, `none` while it is still in its loop after them. -/
def main_loop : List LoopInput → LoopState → Option Int
  | [], _ => none
  | i :: rest, s =>
    match main_iteration i s with
    | Step.continues s1 _ _ => main_loop rest s1
    | Step.quick_exit status _ _ => some status
    | Step.main_return status _ _ _ => some status

/-! ## Projections of the output used to state properties -/

/-- Whether an action presses or releases the target `t`. -/
def on_target (t : Target) (a : Action) : Bool :=
  decide (a = Action.down t ∨ a = Action.up t)

/-- The presses and releases of `t` among the events of a list of calls. -/
def button_events (t : Target) (calls : List Call) : List Action :=
  (events calls).filter (on_target t)

/-- The `SetCursorPos` calls of a list of calls. -/
def pointer_calls (calls : List Call) : List Call :=
  calls.filter (fun c => match c with
    | Call.SetCursorPos _ _ => true
    | Call.SendInput _ => false)

/-- The wheel events among the events of a list of calls. -/
def wheel_events (calls : List Call) : List Action :=
  (events calls).filter (fun a => match a with
    | Action.wheel _ => true
    | Action.hwheel _ => true
    | _ => false)

/-- The 14 values of `GAMEPAD_BUTTON`. -/
def single_button (m : Nat) : Bool :=
  decide (m ∈ [GAMEPAD_BUTTON.UP, GAMEPAD_BUTTON.DOWN, GAMEPAD_BUTTON.LEFT, GAMEPAD_BUTTON.RIGHT,
    GAMEPAD_BUTTON.ESCAPE, GAMEPAD_BUTTON.START, GAMEPAD_BUTTON.LEFT_STICK,
    GAMEPAD_BUTTON.RIGHT_STICK, GAMEPAD_BUTTON.LEFT_SHOULDER, GAMEPAD_BUTTON.RIGHT_SHOULDER,
    GAMEPAD_BUTTON.A, GAMEPAD_BUTTON.B, GAMEPAD_BUTTON.X, GAMEPAD_BUTTON.Y])

/-- An entry with nothing set: what `ZeroMemory` left. -/
def INPUT.blank (i : INPUT) : Bool := decide (i = INPUT.zero)

/-- The renaming of the left mouse button to the right one in an entry:
`MOUSEEVENTF_LEFTDOWN` becomes `MOUSEEVENTF_RIGHTDOWN` and `MOUSEEVENTF_LEFTUP`
becomes `MOUSEEVENTF_RIGHTUP`. -/
def rename_left_right (i : INPUT) : INPUT :=
  if i.mi_dwFlags = MOUSEEVENTF_LEFTDOWN then { i with w3 := MOUSEEVENTF_RIGHTDOWN }
  else if i.mi_dwFlags = MOUSEEVENTF_LEFTUP then { i with w3 := MOUSEEVENTF_RIGHTUP }
  else i

/-- The renaming applied to every entry of every batch. -/
def rename_calls : List Call → List Call
  | [] => []
  | Call.SendInput inputs :: cs => Call.SendInput (inputs.map rename_left_right) :: rename_calls cs
  | Call.SetCursorPos x y :: cs => Call.SetCursorPos x y :: rename_calls cs

/-- The entries of all batches handed to `SendInput` in a list of calls. -/
def submitted : List Call → List INPUT
  | [] => []
  | Call.SendInput inputs :: cs => inputs ++ submitted cs
  | Call.SetCursorPos _ _ :: cs => submitted cs

/-- The `double` values written to the console, in order. -/
def printed_doubles : List Console → List ℚ
  | [] => []
  | Console.cout_double d :: rest => d :: printed_doubles rest
  | _ :: rest => printed_doubles rest

/-! ## Lemmas on `simulate_keyboard` -/

theorem toDWORD_of_lt {n : Nat} (h : n < 4294967296) : toDWORD n = n :=
  Nat.mod_eq_of_lt h

theorem simulate_keyboard_same (m b : Nat) (h : toDWORD m = b) :
    simulate_keyboard m b = Run.returns b [] := by
  simp [simulate_keyboard, h]

theorem simulate_keyboard_escape (b : Nat) (h : b ≠ 16) :
    simulate_keyboard 16 b = Run.quick_exit 0 [] := by
  have h1 : ¬ toDWORD 16 = b := fun e => h (by rw [← e]; rfl)
  unfold simulate_keyboard
  rw [if_neg h1]
  rfl

/-- Every call of `simulate_keyboard` falls in one of three cases: the early
return, the exit, or a batch of two entries pressing and releasing one target. -/
theorem simulate_keyboard_cases (m b : Nat) :
    (toDWORD m = b ∧ simulate_keyboard m b = Run.returns b []) ∨
    (toDWORD m ≠ b ∧ m = 16 ∧ simulate_keyboard m b = Run.quick_exit 0 []) ∨
    (toDWORD m ≠ b ∧ m ≠ 16 ∧ ∃ i0 i1 t,
      simulate_keyboard m b = Run.returns (toDWORD m) [Call.SendInput [i0, i1]] ∧
      i0.actions = [Action.down t] ∧ i1.actions = [Action.up t]) := by
  by_cases h : toDWORD m = b
  · exact Or.inl ⟨h, simulate_keyboard_same m b h⟩
  · right
    by_cases h16 : m = 16
    · left
      subst h16
      exact ⟨h, rfl, simulate_keyboard_escape b (fun e => h (by rw [e]; rfl))⟩
    · right
      refine ⟨h, h16, ?_⟩
      unfold simulate_keyboard
      rw [if_neg h]
      dsimp only
      by_cases hc : m = GAMEPAD_BUTTON.UP
      · rw [if_pos hc]; exact ⟨_, _, _, rfl, rfl, rfl⟩
      rw [if_neg hc]
      clear hc
      by_cases hc : m = GAMEPAD_BUTTON.DOWN
      · rw [if_pos hc]; exact ⟨_, _, _, rfl, rfl, rfl⟩
      rw [if_neg hc]
      clear hc
      by_cases hc : m = GAMEPAD_BUTTON.LEFT
      · rw [if_pos hc]; exact ⟨_, _, _, rfl, rfl, rfl⟩
      rw [if_neg hc]
      clear hc
      by_cases hc : m = GAMEPAD_BUTTON.RIGHT
      · rw [if_pos hc]; exact ⟨_, _, _, rfl, rfl, rfl⟩
      rw [if_neg hc]
      clear hc
      by_cases hc : m = GAMEPAD_BUTTON.ESCAPE
      · exact absurd hc h16
      rw [if_neg hc]
      clear hc
      by_cases hc : m = GAMEPAD_BUTTON.START
      · rw [if_pos hc]; exact ⟨_, _, _, rfl, rfl, rfl⟩
      rw [if_neg hc]
      clear hc
      by_cases hc : m = GAMEPAD_BUTTON.LEFT_STICK
      · rw [if_pos hc]; exact ⟨_, _, _, rfl, rfl, rfl⟩
      rw [if_neg hc]
      clear hc
      by_cases hc : m = GAMEPAD_BUTTON.RIGHT_STICK
      · rw [if_pos hc]; exact ⟨_, _, _, rfl, rfl, rfl⟩
      rw [if_neg hc]
      clear hc
      by_cases hc : m = GAMEPAD_BUTTON.LEFT_SHOULDER
      · rw [if_pos hc]; exact ⟨_, _, _, rfl, rfl, rfl⟩
      rw [if_neg hc]
      clear hc
      by_cases hc : m = GAMEPAD_BUTTON.RIGHT_SHOULDER
      · rw [if_pos hc]; exact ⟨_, _, _, rfl, rfl, rfl⟩
      rw [if_neg hc]
      clear hc
      by_cases hc : m = GAMEPAD_BUTTON.A
      · rw [if_pos hc]; exact ⟨_, _, _, rfl, rfl, rfl⟩
      rw [if_neg hc]
      clear hc
      by_cases hc : m = GAMEPAD_BUTTON.B
      · rw [if_pos hc]; exact ⟨_, _, _, rfl, rfl, rfl⟩
      rw [if_neg hc]
      clear hc
      by_cases hc : m = GAMEPAD_BUTTON.X
      · rw [if_pos hc]; exact ⟨_, _, _, rfl, rfl, rfl⟩
      rw [if_neg hc]
      clear hc
      by_cases hc : m = GAMEPAD_BUTTON.Y
      · rw [if_pos hc]; exact ⟨_, _, _, rfl, rfl, rfl⟩
      rw [if_neg hc]
      clear hc
      exact ⟨_, _, _, rfl, rfl, rfl⟩

/-- When the mask differs from the buffer the buffer plays no further part. -/
theorem simulate_keyboard_indep (m b : Nat) (r : Run Nat) (hm : m < 4294967296) (hne : m ≠ b)
    (h : simulate_keyboard m (m + 1) = r) : simulate_keyboard m b = r := by
  have h1 : ¬ toDWORD m = b := by rw [toDWORD_of_lt hm]; exact hne
  have h2 : ¬ toDWORD m = m + 1 := by rw [toDWORD_of_lt hm]; omega
  rw [← h]
  unfold simulate_keyboard
  rw [if_neg h1, if_neg h2]

theorem simulate_keyboard_table (m b : Nat) (t : Target) (hT : spec_keymap m = some t)
    (hne : m ≠ b) :
    ∃ i0 i1, simulate_keyboard m b = Run.returns m [Call.SendInput [i0, i1]] ∧
      i0.actions = [Action.down t] ∧ i1.actions = [Action.up t] := by
  unfold spec_keymap at hT
  by_cases hc : m = 1
  · rw [if_pos hc] at hT
    subst hc
    cases hT
    exact ⟨_, _, simulate_keyboard_indep _ b _ (by decide) hne rfl, rfl, rfl⟩
  rw [if_neg hc] at hT
  clear hc
  by_cases hc : m = 2
  · rw [if_pos hc] at hT
    subst hc
    cases hT
    exact ⟨_, _, simulate_keyboard_indep _ b _ (by decide) hne rfl, rfl, rfl⟩
  rw [if_neg hc] at hT
  clear hc
  by_cases hc : m = 4
  · rw [if_pos hc] at hT
    subst hc
    cases hT
    exact ⟨_, _, simulate_keyboard_indep _ b _ (by decide) hne rfl, rfl, rfl⟩
  rw [if_neg hc] at hT
  clear hc
  by_cases hc : m = 8
  · rw [if_pos hc] at hT
    subst hc
    cases hT
    exact ⟨_, _, simulate_keyboard_indep _ b _ (by decide) hne rfl, rfl, rfl⟩
  rw [if_neg hc] at hT
  clear hc
  by_cases hc : m = 32
  · rw [if_pos hc] at hT
    subst hc
    cases hT
    exact ⟨_, _, simulate_keyboard_indep _ b _ (by decide) hne rfl, rfl, rfl⟩
  rw [if_neg hc] at hT
  clear hc
  by_cases hc : m = 64
  · rw [if_pos hc] at hT
    subst hc
    cases hT
    exact ⟨_, _, simulate_keyboard_indep _ b _ (by decide) hne rfl, rfl, rfl⟩
  rw [if_neg hc] at hT
  clear hc
  by_cases hc : m = 128
  · rw [if_pos hc] at hT
    subst hc
    cases hT
    exact ⟨_, _, simulate_keyboard_indep _ b _ (by decide) hne rfl, rfl, rfl⟩
  rw [if_neg hc] at hT
  clear hc
  by_cases hc : m = 256
  · rw [if_pos hc] at hT
    subst hc
    cases hT
    exact ⟨_, _, simulate_keyboard_indep _ b _ (by decide) hne rfl, rfl, rfl⟩
  rw [if_neg hc] at hT
  clear hc
  by_cases hc : m = 512
  · rw [if_pos hc] at hT
    subst hc
    cases hT
    exact ⟨_, _, simulate_keyboard_indep _ b _ (by decide) hne rfl, rfl, rfl⟩
  rw [if_neg hc] at hT
  clear hc
  by_cases hc : m = 4096
  · rw [if_pos hc] at hT
    subst hc
    cases hT
    exact ⟨_, _, simulate_keyboard_indep _ b _ (by decide) hne rfl, rfl, rfl⟩
  rw [if_neg hc] at hT
  clear hc
  by_cases hc : m = 8192
  · rw [if_pos hc] at hT
    subst hc
    cases hT
    exact ⟨_, _, simulate_keyboard_indep _ b _ (by decide) hne rfl, rfl, rfl⟩
  rw [if_neg hc] at hT
  clear hc
  by_cases hc : m = 16384
  · rw [if_pos hc] at hT
    subst hc
    cases hT
    exact ⟨_, _, simulate_keyboard_indep _ b _ (by decide) hne rfl, rfl, rfl⟩
  rw [if_neg hc] at hT
  clear hc
  by_cases hc : m = 32768
  · rw [if_pos hc] at hT
    subst hc
    cases hT
    exact ⟨_, _, simulate_keyboard_indep _ b _ (by decide) hne rfl, rfl, rfl⟩
  rw [if_neg hc] at hT
  clear hc
  cases hT

theorem events_append (c1 c2 : List Call) : events (c1 ++ c2) = events c1 ++ events c2 := by
  induction c1 with
  | nil => rfl
  | cons c cs ih =>
    cases c with
    | SendInput inputs => simp [events, ih]
    | SetCursorPos x y => simp [events, ih]

theorem events_pair (i0 i1 : INPUT) (a0 a1 : Action) (h0 : i0.actions = [a0])
    (h1 : i1.actions = [a1]) : events [Call.SendInput [i0, i1]] = [a0, a1] := by
  simp [events, batch_actions, h0, h1]

/-- The button buffer of a reachable state is never the escape mask. -/
theorem reachable_button_buffer (s : Buffers) (h : Reachable s) : s.button_buffer ≠ 16 := by
  induction h with
  | initial => decide
  | @poll s0 s1 calls pad point _ hv hstep ih =>
    unfold main_connected at hstep
    have hw : pad.wButtons < 4294967296 := lt_trans hv.1 (by decide)
    rcases simulate_keyboard_cases pad.wButtons s0.button_buffer with
      ⟨_, hk⟩ | ⟨_, _, hk⟩ | ⟨_, h16, i0, i1, t, hk, _, _⟩
    · rw [hk] at hstep
      injection hstep with hs _
      rw [← hs]
      exact ih
    · rw [hk] at hstep
      cases hstep
    · rw [hk] at hstep
      injection hstep with hs _
      rw [← hs]
      show toDWORD pad.wButtons ≠ 16
      rw [toDWORD_of_lt hw]
      exact h16

theorem outstanding_pair (t u : Target) (rest : List Action) :
    outstanding t (Action.down u :: Action.up u :: rest) = outstanding t rest := by
  simp only [outstanding]
  split_ifs <;> omega

/-- The event stream of a sequence of polls is empty, or that of the later
polls, or one press and release of a target followed by that of the later polls. -/
theorem keyboard_polls_cons (b m : Nat) (ms : List Nat) :
    events (keyboard_polls b (m :: ms)) = [] ∨
    (∃ b1, events (keyboard_polls b (m :: ms)) = events (keyboard_polls b1 ms)) ∨
    (∃ b1 u, events (keyboard_polls b (m :: ms)) =
      Action.down u :: Action.up u :: events (keyboard_polls b1 ms)) := by
  rcases simulate_keyboard_cases m b with ⟨_, hk⟩ | ⟨_, _, hk⟩ | ⟨_, _, i0, i1, u, hk, h0, h1⟩
  · right; left
    exact ⟨b, by simp [keyboard_polls, hk]⟩
  · left
    simp [keyboard_polls, hk, events]
  · right; right
    refine ⟨toDWORD m, u, ?_⟩
    simp only [keyboard_polls, hk]
    rw [events_append, events_pair i0 i1 _ _ h0 h1]
    rfl

theorem keyboard_polls_outstanding (t : Target) (ms : List Nat) :
    ∀ b n, 0 ≤ outstanding t ((events (keyboard_polls b ms)).take n) ∧
      outstanding t ((events (keyboard_polls b ms)).take n) ≤ 1 := by
  induction ms with
  | nil => intro b n; simp [keyboard_polls, events, outstanding]
  | cons m ms ih =>
    intro b n
    rcases keyboard_polls_cons b m ms with h | ⟨b1, h⟩ | ⟨b1, u, h⟩
    · rw [h]; simp [outstanding]
    · rw [h]; exact ih b1 n
    · rw [h]
      match n with
      | 0 => simp [outstanding]
      | 1 =>
        simp only [List.take, outstanding]
        split_ifs <;> simp
      | k + 2 =>
        simp only [List.take]
        rw [outstanding_pair]
        exact ih b1 k

theorem keyboard_polls_outstanding_end (t : Target) (ms : List Nat) :
    ∀ b, outstanding t (events (keyboard_polls b ms)) = 0 := by
  induction ms with
  | nil => intro b; simp [keyboard_polls, events, outstanding]
  | cons m ms ih =>
    intro b
    rcases keyboard_polls_cons b m ms with h | ⟨b1, h⟩ | ⟨b1, u, h⟩
    · rw [h]; rfl
    · rw [h]; exact ih b1
    · rw [h, outstanding_pair]; exact ih b1

/-! ## Theorems on the button translator -/

/-- C1 (as amended): for every polled 16 bit button mask `m` other than the
escape mask 16 and every buffer `b`, `simulate_keyboard` emits a down/up event
pair if and only if `m` differs from `b`; when `m` equals `b` (escape mask
included) it returns without a call and leaves the buffer unchanged; when `m`
is the escape mask and differs from `b` it ends the process with status 0
without emitting anything. -/
theorem simulate_keyboard_emits_iff (m b : Nat) (hm : m < 65536) :
    (m ≠ GAMEPAD_BUTTON.ESCAPE →
      ((∃ t, events (simulate_keyboard m b).calls = [Action.down t, Action.up t]) ↔ m ≠ b)) ∧
    (m = b → simulate_keyboard m b = Run.returns b []) ∧
    (m = GAMEPAD_BUTTON.ESCAPE → m ≠ b → simulate_keyboard m b = Run.quick_exit 0 []) := by
  have hd : toDWORD m = m := toDWORD_of_lt (lt_trans hm (by decide))
  refine ⟨fun h16 => ?_, fun h => simulate_keyboard_same m b (hd.trans h), fun h16 hne => ?_⟩
  · rcases simulate_keyboard_cases m b with ⟨he, hk⟩ | ⟨_, he, _⟩ | ⟨hne, _, i0, i1, t, hk, h0, h1⟩
    · rw [hk]
      simp only [Run.calls, events]
      constructor
      · rintro ⟨t, ht⟩; cases ht
      · intro hne; exact absurd (hd.symm.trans he) hne
    · exact absurd he h16
    · rw [hk]
      simp only [Run.calls]
      constructor
      · intro _ h; exact hne (hd.trans h)
      · intro _; exact ⟨t, events_pair i0 i1 _ _ h0 h1⟩
  · subst h16
    exact simulate_keyboard_escape b (fun e => hne e.symm)

/-- Witness for `simulate_keyboard_emits_iff`: the mask 1 against the buffer 0. -/
theorem simulate_keyboard_emits_iff_witness :
    (1 : Nat) < 65536 ∧
    (((1 : Nat) ≠ GAMEPAD_BUTTON.ESCAPE →
      ((∃ t, events (simulate_keyboard 1 0).calls = [Action.down t, Action.up t]) ↔ (1 : Nat) ≠ 0)) ∧
    ((1 : Nat) = 0 → simulate_keyboard 1 0 = Run.returns 0 []) ∧
    ((1 : Nat) = GAMEPAD_BUTTON.ESCAPE → (1 : Nat) ≠ 0 →
      simulate_keyboard 1 0 = Run.quick_exit 0 [])) :=
  ⟨by decide, simulate_keyboard_emits_iff 1 0 (by decide)⟩

/-- C1 as stated fails at the escape mask: with mask 16 and buffer 0 the mask
differs from the buffer, yet the process ends and no event pair is emitted. -/
theorem simulate_keyboard_escape_no_pair :
    simulate_keyboard 16 0 = Run.quick_exit 0 [] ∧
    ¬ ((∃ t, events (simulate_keyboard 16 0).calls = [Action.down t, Action.up t]) ↔
        (16 : Nat) ≠ 0) := by
  have h : simulate_keyboard 16 0 = Run.quick_exit 0 [] := by decide
  refine ⟨h, fun hiff => ?_⟩
  obtain ⟨t, ht⟩ := hiff.mpr (by decide)
  rw [h] at ht
  cases ht

/-- C2: for every buffer `b` and every single-button mask `m` other than the
escape mask with `m ≠ b` (the masks `spec_keymap` is defined on, with target
`t`), `simulate_keyboard` makes exactly one `SendInput` call with the ordered
pair of entries press `t`, release `t`, and the buffer becomes `m`. -/
theorem simulate_keyboard_mapped_pair (m b : Nat) (t : Target) (hT : spec_keymap m = some t)
    (hne : m ≠ b) :
    (∃ i0 i1, simulate_keyboard m b = Run.returns m [Call.SendInput [i0, i1]] ∧
      i0.actions = [Action.down t] ∧ i1.actions = [Action.up t]) ∧
    events (simulate_keyboard m b).calls = [Action.down t, Action.up t] := by
  obtain ⟨i0, i1, hk, h0, h1⟩ := simulate_keyboard_table m b t hT hne
  refine ⟨⟨i0, i1, hk, h0, h1⟩, ?_⟩
  rw [hk]
  exact events_pair i0 i1 _ _ h0 h1

/-- Witness for `simulate_keyboard_mapped_pair`, the scenario of the
specification: the mask changes from 0 to `UP` (1); down and up of the
up-arrow key are emitted and the buffer becomes 1. -/
theorem simulate_keyboard_mapped_pair_witness :
    spec_keymap 1 = some (Target.key VK_UP) ∧ (1 : Nat) ≠ 0 ∧
    (∃ i0 i1, simulate_keyboard 1 0 = Run.returns 1 [Call.SendInput [i0, i1]] ∧
      i0.actions = [Action.down (Target.key VK_UP)] ∧
      i1.actions = [Action.up (Target.key VK_UP)]) ∧
    events (simulate_keyboard 1 0).calls =
      [Action.down (Target.key VK_UP), Action.up (Target.key VK_UP)] :=
  ⟨by decide, by decide, simulate_keyboard_mapped_pair 1 0 _ (by decide) (by decide)⟩

/-- C9: in every state reachable from the initial buffers by polls, the button
buffer is not the escape mask 16, so a polled escape mask is never swallowed
by the equal-to-buffer return: `simulate_keyboard` ends the process with
status 0 before any call, and so does the whole iteration of `main`. -/
theorem escape_never_masked (s : Buffers) (h : Reachable s) :
    s.button_buffer ≠ GAMEPAD_BUTTON.ESCAPE ∧
    simulate_keyboard GAMEPAD_BUTTON.ESCAPE s.button_buffer = Run.quick_exit 0 [] ∧
    ∀ (pad : XINPUT_GAMEPAD) (point : POINT), pad.wButtons = GAMEPAD_BUTTON.ESCAPE →
      main_connected pad point s = Run.quick_exit 0 [] := by
  have hb : s.button_buffer ≠ 16 := reachable_button_buffer s h
  have hk : simulate_keyboard 16 s.button_buffer = Run.quick_exit 0 [] :=
    simulate_keyboard_escape _ hb
  refine ⟨hb, hk, fun pad point hp => ?_⟩
  unfold main_connected
  rw [hp]
  show (match simulate_keyboard 16 s.button_buffer with
    | Run.quick_exit status calls => Run.quick_exit status calls
    | Run.returns button_buffer c1 => _) = _
  rw [hk]

/-- Witness for `escape_never_masked`: the initial state of `main`. -/
theorem escape_never_masked_witness :
    Reachable Buffers.initial ∧
    Buffers.initial.button_buffer ≠ GAMEPAD_BUTTON.ESCAPE ∧
    simulate_keyboard GAMEPAD_BUTTON.ESCAPE Buffers.initial.button_buffer = Run.quick_exit 0 [] ∧
    ∀ (pad : XINPUT_GAMEPAD) (point : POINT), pad.wButtons = GAMEPAD_BUTTON.ESCAPE →
      main_connected pad point Buffers.initial = Run.quick_exit 0 [] :=
  ⟨Reachable.initial, escape_never_masked Buffers.initial Reachable.initial⟩

/-- C10: for every sequence of polled button masks and every starting buffer,
at every point of the event stream emitted by `simulate_keyboard` each target
has zero or one press without its release outstanding, none is outstanding
at the end of the stream, and every single call either makes no `SendInput`
call or sends one batch whose first entry presses and whose second entry
releases the same target. -/
theorem keyboard_down_always_released (b : Nat) (ms : List Nat) (t : Target) :
    (∀ n, 0 ≤ outstanding t ((events (keyboard_polls b ms)).take n) ∧
      outstanding t ((events (keyboard_polls b ms)).take n) ≤ 1) ∧
    outstanding t (events (keyboard_polls b ms)) = 0 ∧
    (∀ m, (simulate_keyboard m b).calls = [] ∨
      ∃ i0 i1 u, (simulate_keyboard m b).calls = [Call.SendInput [i0, i1]] ∧
        i0.actions = [Action.down u] ∧ i1.actions = [Action.up u]) := by
  refine ⟨keyboard_polls_outstanding t ms b, keyboard_polls_outstanding_end t ms b, fun m => ?_⟩
  rcases simulate_keyboard_cases m b with ⟨_, hk⟩ | ⟨_, _, hk⟩ | ⟨_, _, i0, i1, u, hk, h0, h1⟩
  · left; rw [hk]; rfl
  · left; rw [hk]; rfl
  · right; exact ⟨i0, i1, u, by rw [hk]; rfl, h0, h1⟩

/-! ## Lemmas on the trigger translators -/

theorem trigger_activated_iff (m : Nat) : trigger_activated m = true ↔ 255 ≤ m := by
  unfold trigger_activated TRIGGER_RANGE trigger_sensitivity
  rw [decide_eq_true_iff]
  constructor
  · intro h
    by_contra hlt
    have h0 : m / 255 = 0 := Nat.div_eq_of_lt (by omega)
    rw [h0] at h
    norm_num at h
  · intro h
    have h1 : 1 ≤ m / 255 := (Nat.one_le_div_iff (by decide)).mpr h
    have h2 : (1 : ℚ) ≤ ((m / 255 : Nat) : ℚ) := by exact_mod_cast h1
    linarith

theorem trigger_activated_eq_false_iff (m : Nat) : trigger_activated m = false ↔ m < 255 := by
  rw [← Bool.not_eq_true, trigger_activated_iff]
  omega

theorem simulate_left_mouse_status (m : Nat) (p : Bool) :
    (simulate_left_mouse m (status_buffer p)).1 = status_buffer (trigger_activated m) ∧
    events (simulate_left_mouse m (status_buffer p)).2 =
      spec_edge Target.mouse_left p (trigger_activated m) := by
  cases p <;> cases h : trigger_activated m <;>
    simp [simulate_left_mouse, status_buffer, spec_edge, h] <;> decide

theorem simulate_right_mouse_status (m : Nat) (p : Bool) :
    (simulate_right_mouse m (status_buffer p)).1 = status_buffer (trigger_activated m) ∧
    events (simulate_right_mouse m (status_buffer p)).2 =
      spec_edge Target.mouse_right p (trigger_activated m) := by
  cases p <;> cases h : trigger_activated m <;>
    simp [simulate_right_mouse, status_buffer, spec_edge, h] <;> decide

/-- Over a sequence of polls a translator that follows the status emits at each
poll the edge between the previous status and the present one. -/
theorem trigger_polls_edges (sim : Nat → Nat → Nat × List Call) (t : Target)
    (hstep : ∀ m p, (sim m (status_buffer p)).1 = status_buffer (trigger_activated m) ∧
      events (sim m (status_buffer p)).2 = spec_edge t p (trigger_activated m))
    (ms : List Nat) :
    ∀ p, (trigger_polls sim (status_buffer p) ms).map events =
      List.zipWith (spec_edge t) (p :: ms.map trigger_activated) (ms.map trigger_activated) := by
  induction ms with
  | nil => intro p; rfl
  | cons m ms ih =>
    intro p
    simp only [trigger_polls, List.map_cons, List.zipWith_cons_cons]
    rw [(hstep m p).1, (hstep m p).2, ih]

theorem zipWith_shift_replicate {α β : Type} (f : α → α → β) (a : α) (n : Nat) (X Y : List α) :
    List.zipWith f (a :: (List.replicate n a ++ X)) (List.replicate n a ++ Y) =
      List.replicate n (f a a) ++ List.zipWith f (a :: X) Y := by
  induction n with
  | zero => simp
  | succ n ih =>
    simp only [List.replicate_succ, List.cons_append, List.zipWith_cons_cons]
    rw [ih]

theorem map_trigger_activated_range :
    (List.range 255).map trigger_activated = List.replicate 255 false := by
  rw [List.eq_replicate_iff]
  refine ⟨by simp, fun b hb => ?_⟩
  obtain ⟨m, hm, rfl⟩ := List.mem_map.mp hb
  exact (trigger_activated_eq_false_iff m).mpr (List.mem_range.mp hm)

/-- The edges of the statuses of a rise from 0 to 255, `k` further polls at
255 and a final poll below 255. -/
theorem spec_edge_rise (t : Target) (k m : Nat) (hm : m < 255) :
    List.zipWith (spec_edge t)
      (false :: (List.range 255 ++ List.replicate (k + 1) 255 ++ [m]).map trigger_activated)
      ((List.range 255 ++ List.replicate (k + 1) 255 ++ [m]).map trigger_activated) =
    List.replicate 255 [] ++ [Action.down t] :: (List.replicate k [] ++ [[Action.up t]]) := by
  have h255 : trigger_activated 255 = true := (trigger_activated_iff 255).mpr (le_refl _)
  have hlow : trigger_activated m = false := (trigger_activated_eq_false_iff m).mpr hm
  simp only [List.map_append, map_trigger_activated_range, List.map_replicate, h255, hlow,
    List.map_cons, List.map_nil, List.append_assoc]
  rw [zipWith_shift_replicate]
  rw [show List.replicate (k + 1) true = true :: List.replicate k true from rfl]
  simp only [List.cons_append, List.zipWith_cons_cons]
  rw [zipWith_shift_replicate]
  have e1 : spec_edge t false false = [] := rfl
  have e2 : spec_edge t false true = [Action.down t] := rfl
  have e3 : spec_edge t true true = [] := rfl
  have e4 : spec_edge t true false = [Action.up t] := rfl
  simp only [e1, e2, e3, e4, List.zipWith_cons_cons, List.zipWith_nil_right]

/-! ## Theorems on the trigger translators -/

/-- C3: for every trigger magnitude `m` and buffer value `b`, with
`activated = (m / 255 >= trigger_sensitivity)` as the code computes it: when
activated and `b` is not 1 (down), each trigger translator makes one
`SendInput` call carrying exactly one button-down event (left button for
`simulate_left_mouse`, right button for `simulate_right_mouse`) and sets the
buffer to 1; when not activated and `b` is not 2 (up), it makes one call
carrying exactly one button-up event and sets the buffer to 2; in the two
remaining cases it makes no call and leaves the buffer unchanged. -/
theorem trigger_translator_step (m b : Nat) :
    (trigger_activated m = true → b ≠ 1 →
      simulate_left_mouse m b =
        (1, [Call.SendInput [⟨INPUT_MOUSE, 0, 0, 0, MOUSEEVENTF_LEFTDOWN⟩, INPUT.zero]]) ∧
      events (simulate_left_mouse m b).2 = [Action.down Target.mouse_left] ∧
      simulate_right_mouse m b =
        (1, [Call.SendInput [⟨INPUT_MOUSE, 0, 0, 0, MOUSEEVENTF_RIGHTDOWN⟩, INPUT.zero]]) ∧
      events (simulate_right_mouse m b).2 = [Action.down Target.mouse_right]) ∧
    (trigger_activated m = false → b ≠ 2 →
      simulate_left_mouse m b =
        (2, [Call.SendInput [INPUT.zero, ⟨INPUT_MOUSE, 0, 0, 0, MOUSEEVENTF_LEFTUP⟩]]) ∧
      events (simulate_left_mouse m b).2 = [Action.up Target.mouse_left] ∧
      simulate_right_mouse m b =
        (2, [Call.SendInput [INPUT.zero, ⟨INPUT_MOUSE, 0, 0, 0, MOUSEEVENTF_RIGHTUP⟩]]) ∧
      events (simulate_right_mouse m b).2 = [Action.up Target.mouse_right]) ∧
    (trigger_activated m = true → b = 1 →
      simulate_left_mouse m b = (b, []) ∧ simulate_right_mouse m b = (b, [])) ∧
    (trigger_activated m = false → b = 2 →
      simulate_left_mouse m b = (b, []) ∧ simulate_right_mouse m b = (b, [])) := by
  refine ⟨fun ha hb => ?_, fun ha hb => ?_, fun ha hb => ?_, fun ha hb => ?_⟩
  · have l : simulate_left_mouse m b =
        (1, [Call.SendInput [⟨INPUT_MOUSE, 0, 0, 0, MOUSEEVENTF_LEFTDOWN⟩, INPUT.zero]]) := by
      simp only [simulate_left_mouse, ha, if_true, if_neg hb]; rfl
    have r : simulate_right_mouse m b =
        (1, [Call.SendInput [⟨INPUT_MOUSE, 0, 0, 0, MOUSEEVENTF_RIGHTDOWN⟩, INPUT.zero]]) := by
      simp only [simulate_right_mouse, ha, if_true, if_neg hb]; rfl
    exact ⟨l, by rw [l]; decide, r, by rw [r]; decide⟩
  · have l : simulate_left_mouse m b =
        (2, [Call.SendInput [INPUT.zero, ⟨INPUT_MOUSE, 0, 0, 0, MOUSEEVENTF_LEFTUP⟩]]) := by
      simp only [simulate_left_mouse, ha, if_neg hb]; rfl
    have r : simulate_right_mouse m b =
        (2, [Call.SendInput [INPUT.zero, ⟨INPUT_MOUSE, 0, 0, 0, MOUSEEVENTF_RIGHTUP⟩]]) := by
      simp only [simulate_right_mouse, ha, if_neg hb]; rfl
    exact ⟨l, by rw [l]; decide, r, by rw [r]; decide⟩
  · constructor
    · simp only [simulate_left_mouse, ha, if_true, if_pos hb]
    · simp only [simulate_right_mouse, ha, if_true, if_pos hb]
  · constructor
    · simp only [simulate_left_mouse, ha, if_pos hb]; rfl
    · simp only [simulate_right_mouse, ha, if_pos hb]; rfl

/-- Witness for `trigger_translator_step`: a fully pressed trigger (255) met
with the initial buffer 2 presses the button; the next such poll, met with
buffer 1, makes no call. -/
theorem trigger_translator_step_witness :
    trigger_activated 255 = true ∧
    simulate_left_mouse 255 2 =
      (1, [Call.SendInput [⟨INPUT_MOUSE, 0, 0, 0, MOUSEEVENTF_LEFTDOWN⟩, INPUT.zero]]) ∧
    events (simulate_left_mouse 255 2).2 = [Action.down Target.mouse_left] ∧
    simulate_left_mouse 255 1 = (1, []) := by
  have ha : trigger_activated 255 = true := (trigger_activated_iff 255).mpr (le_refl _)
  have h := trigger_translator_step 255 2
  have h1 := trigger_translator_step 255 1
  exact ⟨ha, (h.1 ha (by decide)).1, (h.1 ha (by decide)).2.1, (h1.2.2.1 ha rfl).1⟩

/-- C4: the activation test divides the magnitude by 255 as integers before
it compares with the threshold 0.25: `activated m = (floor (m / 255) >= 0.25)`;
for magnitudes `0..255` it is true exactly at `m = 255`, it is monotone, and
so has its single step at 255 (false at 64 and at 254, true at 255). -/
theorem trigger_activated_single_step :
    (∀ m : Nat, trigger_activated m = decide ((⌊(m : ℚ) / 255⌋₊ : ℚ) ≥ 1 / 4)) ∧
    (∀ m : Nat, m ≤ 255 → (trigger_activated m = true ↔ m = 255)) ∧
    Monotone trigger_activated ∧
    trigger_activated 64 = false ∧ trigger_activated 254 = false ∧
    trigger_activated 255 = true := by
  refine ⟨fun m => ?_, fun m hm => ?_, fun m n hmn => ?_, ?_, ?_, ?_⟩
  · have hf : ⌊(m : ℚ) / 255⌋₊ = m / 255 := by
      have := Nat.floor_div_eq_div (α := ℚ) m 255
      simpa using this
    rw [hf]
    rfl
  · rw [trigger_activated_iff]; omega
  · cases hn : trigger_activated n
    · have h1 : trigger_activated m = false := by
        rw [trigger_activated_eq_false_iff] at hn ⊢
        omega
      rw [h1]
    · exact Bool.le_true _
  · exact (trigger_activated_eq_false_iff 64).mpr (by decide)
  · exact (trigger_activated_eq_false_iff 254).mpr (by decide)
  · exact (trigger_activated_iff 255).mpr (by decide)

/-- C5: for every finite sequence of trigger magnitudes fed to one trigger
translator from the initial buffer of `main`, the events emitted at poll `i`
are the edge between the activated status at poll `i - 1` (not activated
before the first poll) and at poll `i`: nothing when equal, one press when the
trigger became activated, one release when it became not activated.  In
particular the magnitudes rising through 0, 1, ..., 255 emit one left-button
press, at the poll with 255, nothing during any further polls at 255, and one
release at the first poll below 255. -/
theorem trigger_events_on_status_change (ms : List Nat) :
    (trigger_polls simulate_left_mouse Buffers.initial.right_trigger_buffer ms).map events =
      List.zipWith (spec_edge Target.mouse_left)
        (false :: ms.map trigger_activated) (ms.map trigger_activated) ∧
    (trigger_polls simulate_right_mouse Buffers.initial.left_trigger_buffer ms).map events =
      List.zipWith (spec_edge Target.mouse_right)
        (false :: ms.map trigger_activated) (ms.map trigger_activated) ∧
    ∀ k m : Nat, m < 255 →
      (trigger_polls simulate_left_mouse Buffers.initial.right_trigger_buffer
        (List.range 255 ++ List.replicate (k + 1) 255 ++ [m])).map events =
      List.replicate 255 [] ++
        [Action.down Target.mouse_left] :: (List.replicate k [] ++ [[Action.up Target.mouse_left]]) := by
  have hl := trigger_polls_edges simulate_left_mouse Target.mouse_left simulate_left_mouse_status
  have hr := trigger_polls_edges simulate_right_mouse Target.mouse_right simulate_right_mouse_status
  refine ⟨hl ms false, hr ms false, fun k m hm => ?_⟩
  exact (hl _ false).trans (spec_edge_rise Target.mouse_left k m hm)

/-! ## Lemmas on the stick translators -/

theorem double_to_int_eq (d : ℚ) (z : Int)
    (h : (0 ≤ d ∧ (z : ℚ) ≤ d ∧ d < z + 1) ∨ (d < 0 ∧ (z : ℚ) - 1 < d ∧ d ≤ z)) :
    double_to_int d = z := by
  unfold double_to_int
  rcases h with ⟨h0, h1, h2⟩ | ⟨h0, h1, h2⟩
  · rw [if_pos h0]; exact Int.floor_eq_iff.mpr ⟨h1, h2⟩
  · rw [if_neg (not_le.mpr h0)]; exact Int.ceil_eq_iff.mpr ⟨h1, h2⟩

theorem double_to_int_intCast (z : Int) : double_to_int (z : ℚ) = z := by
  unfold double_to_int
  split_ifs
  · exact Int.floor_intCast z
  · exact Int.ceil_intCast z

/-- Truncation of a quotient of integers is the truncating integer division. -/
theorem double_to_int_div (a : Int) (d : Nat) (hd : 0 < d) :
    double_to_int ((a : ℚ) / (d : ℚ)) = a.tdiv d := by
  have hdq : (0 : ℚ) < (d : ℚ) := by exact_mod_cast hd
  unfold double_to_int
  by_cases ha : 0 ≤ a
  · have h0 : (0 : ℚ) ≤ (a : ℚ) / (d : ℚ) := div_nonneg (by exact_mod_cast ha) hdq.le
    rw [if_pos h0, Rat.floor_intCast_div_natCast, Int.tdiv_eq_ediv ha (Int.natCast_nonneg d)]
  · have ha1 : a < 0 := not_le.mp ha
    have h0 : ¬ (0 : ℚ) ≤ (a : ℚ) / (d : ℚ) :=
      not_le.mpr (div_neg_of_neg_of_pos (by exact_mod_cast ha1) hdq)
    rw [if_neg h0]
    have h1 : (a : ℚ) / (d : ℚ) = -(((-a : Int) : ℚ) / (d : ℚ)) := by
      push_cast; ring
    rw [h1, Int.ceil_neg, Rat.floor_intCast_div_natCast,
      ← Int.tdiv_eq_ediv (by omega) (Int.natCast_nonneg d), Int.neg_tdiv, neg_neg]

theorem double_to_int_error (d : ℚ) : |(double_to_int d : ℚ) - d| < 1 := by
  unfold double_to_int
  rw [abs_lt]
  split_ifs
  · have h1 := Int.floor_le d
    have h2 := Int.lt_floor_add_one d
    constructor <;> linarith
  · have h1 := Int.le_ceil d
    have h2 := Int.ceil_lt_add_one d
    constructor <;> linarith

theorem out_deadzone_false (x : ℚ) (h : |x / SHORT_RANGE| ≤ analog_stick_deadzone) :
    out_deadzone x = false := by
  unfold out_deadzone
  exact decide_eq_false (not_lt.mpr h)

theorem out_deadzone_true (x : ℚ) (h : |x / SHORT_RANGE| > analog_stick_deadzone) :
    out_deadzone x = true := by
  unfold out_deadzone
  exact decide_eq_true h

/-- For an integer axis value the deadzone test of the code (against the
`double` holding `0.15f`) is the test `|v| <= 4915`. -/
theorem deadzone_int (v : Int) :
    |(v : ℚ) / SHORT_RANGE| ≤ analog_stick_deadzone ↔ |v| ≤ 4915 := by
  unfold SHORT_RANGE analog_stick_deadzone
  rw [abs_div, abs_of_pos (by norm_num : (0 : ℚ) < 32768), div_le_iff₀ (by norm_num)]
  constructor
  · intro h
    by_contra hc
    have h1 : (4916 : Int) ≤ |v| := by omega
    have h2 : (4916 : ℚ) ≤ |(v : ℚ)| := by rw [← Int.cast_abs]; exact_mod_cast h1
    norm_num at h
    linarith
  · intro h
    have h2 : |(v : ℚ)| ≤ 4915 := by rw [← Int.cast_abs]; exact_mod_cast h
    norm_num
    linarith

/-- For an integer axis value the deadzone test against the nominal 0.15
selects the same values as the test of the code. -/
theorem deadzone_nominal (v : Int) :
    |(v : ℚ) / SHORT_RANGE| ≤ 3 / 20 ↔ |(v : ℚ) / SHORT_RANGE| ≤ analog_stick_deadzone := by
  rw [deadzone_int]
  unfold SHORT_RANGE
  rw [abs_div, abs_of_pos (by norm_num : (0 : ℚ) < 32768), div_le_iff₀ (by norm_num)]
  constructor
  · intro h
    by_contra hc
    have h1 : (4916 : Int) ≤ |v| := by omega
    have h2 : (4916 : ℚ) ≤ |(v : ℚ)| := by rw [← Int.cast_abs]; exact_mod_cast h1
    norm_num at h
    linarith
  · intro h
    have h2 : |(v : ℚ)| ≤ 4915 := by rw [← Int.cast_abs]; exact_mod_cast h
    norm_num
    linarith

theorem simulate_mouse_movement_x (point : POINT) (x y : ℚ) (hx : out_deadzone x = true) :
    simulate_mouse_movement point x y =
      [Call.SetCursorPos (double_to_int (point.x + x / SHORT_RANGE * mouse_move_sensitivity))
        (double_to_int (if out_deadzone y = true
          then (point.y : ℚ) - y / SHORT_RANGE * mouse_move_sensitivity else point.y))] := by
  simp [simulate_mouse_movement, hx]

theorem simulate_mouse_movement_y (point : POINT) (x y : ℚ) (hy : out_deadzone y = true) :
    simulate_mouse_movement point x y =
      [Call.SetCursorPos
        (double_to_int (if out_deadzone x = true
          then (point.x : ℚ) + x / SHORT_RANGE * mouse_move_sensitivity else point.x))
        (double_to_int (point.y - y / SHORT_RANGE * mouse_move_sensitivity))] := by
  simp [simulate_mouse_movement, hy]

theorem wheel_entry (d : Nat) :
    ((INPUT.zero.set_type INPUT_MOUSE).set_mi_mouseData d).set_mi_dwFlags MOUSEEVENTF_WHEEL =
      ⟨INPUT_MOUSE, 0, 0, toDWORD d, MOUSEEVENTF_WHEEL⟩ := rfl

theorem hwheel_entry (d : Nat) :
    ((INPUT.zero.set_type INPUT_MOUSE).set_mi_mouseData d).set_mi_dwFlags MOUSEEVENTF_HWHEEL =
      ⟨INPUT_MOUSE, 0, 0, toDWORD d, MOUSEEVENTF_HWHEEL⟩ := rfl

theorem wheel_entry_actions (d : Nat) :
    INPUT.actions ⟨INPUT_MOUSE, 0, 0, d, MOUSEEVENTF_WHEEL⟩ = [Action.wheel d] := by
  have h1 : ¬ INPUT_MOUSE = INPUT_KEYBOARD := by decide
  have h2 : ∀ k, Nat.testBit MOUSEEVENTF_WHEEL k = decide (k = 11) := by
    intro k
    by_cases hk : k < 13
    · interval_cases k <;> decide
    · have : MOUSEEVENTF_WHEEL < 2 ^ k :=
        lt_of_lt_of_le (by decide : MOUSEEVENTF_WHEEL < 2 ^ 13) (Nat.pow_le_pow_right (by decide) (by omega))
      rw [Nat.testBit_lt_two_pow this]
      exact (decide_eq_false (by omega)).symm
  simp [INPUT.actions, h1, h2, INPUT.mi_dwFlags, INPUT.mi_mouseData]

theorem hwheel_entry_actions (d : Nat) :
    INPUT.actions ⟨INPUT_MOUSE, 0, 0, d, MOUSEEVENTF_HWHEEL⟩ = [Action.hwheel d] := by
  have h1 : ¬ INPUT_MOUSE = INPUT_KEYBOARD := by decide
  have h2 : ∀ k, Nat.testBit MOUSEEVENTF_HWHEEL k = decide (k = 12) := by
    intro k
    by_cases hk : k < 13
    · interval_cases k <;> decide
    · have : MOUSEEVENTF_HWHEEL < 2 ^ k :=
        lt_of_lt_of_le (by decide : MOUSEEVENTF_HWHEEL < 2 ^ 13) (Nat.pow_le_pow_right (by decide) (by omega))
      rw [Nat.testBit_lt_two_pow this]
      exact (decide_eq_false (by omega)).symm
  simp [INPUT.actions, h1, h2, INPUT.mi_dwFlags, INPUT.mi_mouseData]

theorem zero_entry_actions : INPUT.zero.actions = [] := rfl

theorem double_to_DWORD_lt (d : ℚ) : double_to_DWORD d < 4294967296 := by
  unfold double_to_DWORD
  have h1 := Int.emod_lt_of_pos (double_to_int d) (by norm_num : (0 : Int) < 4294967296)
  have h2 := Int.emod_nonneg (double_to_int d) (by norm_num : (4294967296 : Int) ≠ 0)
  omega

/-- The tick count the code stores for an integer axis value. -/
theorem scroll_ticks_eq (v : Int) :
    toDWORD (double_to_DWORD ((v : ℚ) / SHORT_RANGE * mouse_scroll_sensitivity)) = spec_ticks v := by
  rw [toDWORD_of_lt (double_to_DWORD_lt _)]
  have h : (v : ℚ) / SHORT_RANGE * mouse_scroll_sensitivity =
      (((80 * v : Int)) : ℚ) / ((32768 : Nat) : ℚ) := by
    unfold SHORT_RANGE mouse_scroll_sensitivity
    push_cast
    ring
  unfold double_to_DWORD spec_ticks
  rw [h, double_to_int_div _ _ (by norm_num)]
  rfl

/-- The first entry of the scroll batch, by the deadzone test of the x axis. -/
theorem simulate_mouse_scroll_eq (x y : ℚ) :
    simulate_mouse_scroll x y = [Call.SendInput
      [if out_deadzone x = true then
          ⟨INPUT_MOUSE, 0, 0,
            toDWORD (double_to_DWORD (x / SHORT_RANGE * mouse_scroll_sensitivity)), MOUSEEVENTF_WHEEL⟩
        else INPUT.zero,
       if out_deadzone y = true then
          ⟨INPUT_MOUSE, 0, 0,
            toDWORD (double_to_DWORD (y / SHORT_RANGE * mouse_scroll_sensitivity)), MOUSEEVENTF_HWHEEL⟩
        else INPUT.zero]] := by
  unfold simulate_mouse_scroll
  simp only [wheel_entry, hwheel_entry]

theorem not_wheel_of_x_second (y : ℚ) (d : Nat) :
    Action.wheel d ∉ INPUT.actions (if out_deadzone y = true then
      (⟨INPUT_MOUSE, 0, 0,
        toDWORD (double_to_DWORD (y / SHORT_RANGE * mouse_scroll_sensitivity)), MOUSEEVENTF_HWHEEL⟩ : INPUT)
      else INPUT.zero) := by
  split_ifs
  · rw [hwheel_entry_actions]; simp
  · rw [zero_entry_actions]; simp

theorem not_hwheel_of_y_first (x : ℚ) (d : Nat) :
    Action.hwheel d ∉ INPUT.actions (if out_deadzone x = true then
      (⟨INPUT_MOUSE, 0, 0,
        toDWORD (double_to_DWORD (x / SHORT_RANGE * mouse_scroll_sensitivity)), MOUSEEVENTF_WHEEL⟩ : INPUT)
      else INPUT.zero) := by
  split_ifs
  · rw [wheel_entry_actions]; simp
  · rw [zero_entry_actions]; simp

/-! ## Theorems on the stick translators -/

/-- C6: for every integer stick axis value `v` with `|v / 32768|` at most the
deadzone, neither stick translator produces output for that axis:
`simulate_mouse_movement` either does not reposition the pointer or repositions
it with that coordinate at its current value, and does not reposition it at
all when the other axis is inside the deadzone too; `simulate_mouse_scroll`
leaves the entry of that axis all-zero, so its batch carries no wheel event
for that axis. -/
theorem deadzone_axis_no_output (v : Int) (w : ℚ) (point : POINT)
    (h : |(v : ℚ) / SHORT_RANGE| ≤ analog_stick_deadzone) :
    (simulate_mouse_movement point v w = [] ∨
      ∃ y1, simulate_mouse_movement point v w = [Call.SetCursorPos point.x y1]) ∧
    (simulate_mouse_movement point w v = [] ∨
      ∃ x1, simulate_mouse_movement point w v = [Call.SetCursorPos x1 point.y]) ∧
    (|w / SHORT_RANGE| ≤ analog_stick_deadzone →
      simulate_mouse_movement point v w = [] ∧ simulate_mouse_movement point w v = []) ∧
    (∃ i1, simulate_mouse_scroll v w = [Call.SendInput [INPUT.zero, i1]]) ∧
    (∃ i0, simulate_mouse_scroll w v = [Call.SendInput [i0, INPUT.zero]]) ∧
    (∀ d, Action.wheel d ∉ events (simulate_mouse_scroll v w)) ∧
    (∀ d, Action.hwheel d ∉ events (simulate_mouse_scroll w v)) := by
  have hv : out_deadzone (v : ℚ) = false := out_deadzone_false _ h
  refine ⟨?_, ?_, fun hw => ?_, ?_, ?_, fun d => ?_, fun d => ?_⟩
  · cases hw : out_deadzone w
    · left; simp [simulate_mouse_movement, hv, hw]
    · right
      rw [simulate_mouse_movement_y point v w hw, hv]
      simp only [Bool.false_eq_true, if_false, double_to_int_intCast]
      exact ⟨_, rfl⟩
  · cases hw : out_deadzone w
    · left; simp [simulate_mouse_movement, hv, hw]
    · right
      rw [simulate_mouse_movement_x point w v hw, hv]
      simp only [Bool.false_eq_true, if_false, double_to_int_intCast]
      exact ⟨_, rfl⟩
  · have hw1 : out_deadzone w = false := out_deadzone_false _ hw
    constructor <;> simp [simulate_mouse_movement, hv, hw1]
  · rw [simulate_mouse_scroll_eq, hv]
    simp only [Bool.false_eq_true, if_false]
    exact ⟨_, rfl⟩
  · rw [simulate_mouse_scroll_eq, hv]
    simp only [Bool.false_eq_true, if_false]
    exact ⟨_, rfl⟩
  · rw [simulate_mouse_scroll_eq, hv]
    simp only [Bool.false_eq_true, if_false, events, batch_actions, zero_entry_actions,
      List.nil_append, List.append_nil]
    exact not_wheel_of_x_second w d
  · rw [simulate_mouse_scroll_eq, hv]
    simp only [Bool.false_eq_true, if_false, events, batch_actions, zero_entry_actions,
      List.nil_append, List.append_nil]
    exact not_hwheel_of_y_first w d

/-- Witness for `deadzone_axis_no_output`: the axis value 4915, the largest
inside the deadzone, with the other axis at rest. -/
theorem deadzone_axis_no_output_witness :
    |((4915 : Int) : ℚ) / SHORT_RANGE| ≤ analog_stick_deadzone ∧
    simulate_mouse_movement ⟨100, 100⟩ ((4915 : Int) : ℚ) 0 = [] ∧
    ∃ i1, simulate_mouse_scroll ((4915 : Int) : ℚ) 0 = [Call.SendInput [INPUT.zero, i1]] := by
  have h : |((4915 : Int) : ℚ) / SHORT_RANGE| ≤ analog_stick_deadzone :=
    (deadzone_int 4915).mpr (by decide)
  have h0 : |(0 : ℚ) / SHORT_RANGE| ≤ analog_stick_deadzone := by
    norm_num [SHORT_RANGE, analog_stick_deadzone]
  have t := deadzone_axis_no_output 4915 0 ⟨100, 100⟩ h
  exact ⟨h, (t.2.2.1 h0).1, t.2.2.2.1⟩

/-- C7 (as amended): for every integer stick axis value `v` with `|v / 32768|`
above the deadzone and every current pointer position (a pair of `LONG`s)
from which the new coordinate fits `int`, `simulate_mouse_movement`
repositions the pointer to `current + v / 32768 * move_sensitivity` on the
horizontal axis and to `current - v / 32768 * move_sensitivity` on the vertical
axis, each truncated toward zero to an integer; the displacement therefore
differs from `v / 32768 * move_sensitivity` (negated on the vertical axis) by
less than one pixel. -/
theorem mouse_movement_truncated (v : Int) (w : ℚ) (point : POINT)
    (h : |(v : ℚ) / SHORT_RANGE| > analog_stick_deadzone)
    (hp : fits_int point.x ∧ fits_int point.y) :
    (fits_int ((32768 * point.x + 15 * v).tdiv 32768) →
      (∃ y1, simulate_mouse_movement point v w =
        [Call.SetCursorPos ((32768 * point.x + 15 * v).tdiv 32768) y1]) ∧
      |(((32768 * point.x + 15 * v).tdiv 32768 - point.x : Int) : ℚ) -
          (v : ℚ) / SHORT_RANGE * mouse_move_sensitivity| < 1) ∧
    (fits_int ((32768 * point.y - 15 * v).tdiv 32768) →
      (∃ x1, simulate_mouse_movement point w v =
        [Call.SetCursorPos x1 ((32768 * point.y - 15 * v).tdiv 32768)]) ∧
      |(((32768 * point.y - 15 * v).tdiv 32768 - point.y : Int) : ℚ) -
          (-((v : ℚ) / SHORT_RANGE * mouse_move_sensitivity))| < 1) := by
  obtain ⟨_, _⟩ := hp
  have hv : out_deadzone (v : ℚ) = true := out_deadzone_true _ h
  have ex : (point.x : ℚ) + (v : ℚ) / SHORT_RANGE * mouse_move_sensitivity =
      ((32768 * point.x + 15 * v : Int) : ℚ) / ((32768 : Nat) : ℚ) := by
    unfold SHORT_RANGE mouse_move_sensitivity
    push_cast
    ring
  have ey : (point.y : ℚ) - (v : ℚ) / SHORT_RANGE * mouse_move_sensitivity =
      ((32768 * point.y - 15 * v : Int) : ℚ) / ((32768 : Nat) : ℚ) := by
    unfold SHORT_RANGE mouse_move_sensitivity
    push_cast
    ring
  have tx : double_to_int ((point.x : ℚ) + (v : ℚ) / SHORT_RANGE * mouse_move_sensitivity) =
      (32768 * point.x + 15 * v).tdiv 32768 := by
    rw [ex, double_to_int_div _ _ (by norm_num)]; rfl
  have ty : double_to_int ((point.y : ℚ) - (v : ℚ) / SHORT_RANGE * mouse_move_sensitivity) =
      (32768 * point.y - 15 * v).tdiv 32768 := by
    rw [ey, double_to_int_div _ _ (by norm_num)]; rfl
  refine ⟨fun _ => ⟨?_, ?_⟩, fun _ => ⟨?_, ?_⟩⟩
  · rw [simulate_mouse_movement_x point v w hv, tx]
    exact ⟨_, rfl⟩
  · have e := double_to_int_error ((point.x : ℚ) + (v : ℚ) / SHORT_RANGE * mouse_move_sensitivity)
    rw [tx] at e
    have r : (((32768 * point.x + 15 * v).tdiv 32768 - point.x : Int) : ℚ) -
        (v : ℚ) / SHORT_RANGE * mouse_move_sensitivity =
        (((32768 * point.x + 15 * v).tdiv 32768 : Int) : ℚ) -
          ((point.x : ℚ) + (v : ℚ) / SHORT_RANGE * mouse_move_sensitivity) := by
      push_cast; ring
    rw [r]; exact e
  · rw [simulate_mouse_movement_y point w v hv, ty]
    exact ⟨_, rfl⟩
  · have e := double_to_int_error ((point.y : ℚ) - (v : ℚ) / SHORT_RANGE * mouse_move_sensitivity)
    rw [ty] at e
    have r : (((32768 * point.y - 15 * v).tdiv 32768 - point.y : Int) : ℚ) -
        (-((v : ℚ) / SHORT_RANGE * mouse_move_sensitivity)) =
        (((32768 * point.y - 15 * v).tdiv 32768 : Int) : ℚ) -
          ((point.y : ℚ) - (v : ℚ) / SHORT_RANGE * mouse_move_sensitivity) := by
      push_cast; ring
    rw [r]; exact e

/-- Witness for `mouse_movement_truncated`: the axis value 16384 (half
deflection) with the pointer at (100, 100) moves the pointer to x = 107,
and 107 fits `int`. -/
theorem mouse_movement_truncated_witness :
    |((16384 : Int) : ℚ) / SHORT_RANGE| > analog_stick_deadzone ∧
    (fits_int (100 : Int) ∧ fits_int (100 : Int)) ∧
    fits_int ((32768 * 100 + 15 * 16384 : Int).tdiv 32768) ∧
    ∃ y1, simulate_mouse_movement ⟨100, 100⟩ ((16384 : Int) : ℚ) 0 = [Call.SetCursorPos 107 y1] := by
  have h : |((16384 : Int) : ℚ) / SHORT_RANGE| > analog_stick_deadzone := by
    norm_num [SHORT_RANGE, analog_stick_deadzone, abs_of_nonneg]
  exact ⟨h, by decide, by decide,
    ((mouse_movement_truncated 16384 0 ⟨100, 100⟩ h (by decide)).1 (by decide)).1⟩

/-- C7 as stated fails: with the axis value 16384, outside the deadzone, and
the pointer at (100, 100) the pointer is repositioned to (107, 100), a
horizontal displacement of 7 pixels, while `v / 32768 * move_sensitivity` is 7.5. -/
theorem mouse_movement_displacement_not_exact :
    |((16384 : Int) : ℚ) / SHORT_RANGE| > analog_stick_deadzone ∧
    simulate_mouse_movement ⟨100, 100⟩ ((16384 : Int) : ℚ) 0 = [Call.SetCursorPos 107 100] ∧
    (((107 - 100 : Int) : ℚ) ≠ ((16384 : Int) : ℚ) / SHORT_RANGE * mouse_move_sensitivity) := by
  have h1 : out_deadzone ((16384 : Int) : ℚ) = true := by
    norm_num [out_deadzone, SHORT_RANGE, analog_stick_deadzone, abs_of_nonneg]
  have h2 : out_deadzone 0 = false := by
    norm_num [out_deadzone, SHORT_RANGE, analog_stick_deadzone]
  refine ⟨by norm_num [SHORT_RANGE, analog_stick_deadzone, abs_of_nonneg], ?_, ?_⟩
  · rw [simulate_mouse_movement_x _ _ _ h1, h2]
    have e1 : double_to_int (((⟨100, 100⟩ : POINT).x : ℚ) +
        ((16384 : Int) : ℚ) / SHORT_RANGE * mouse_move_sensitivity) = 107 := by
      apply double_to_int_eq
      norm_num [SHORT_RANGE, mouse_move_sensitivity]
    have e2 : double_to_int (if false = true
        then (((⟨100, 100⟩ : POINT).y : ℚ)) - 0 / SHORT_RANGE * mouse_move_sensitivity
        else (((⟨100, 100⟩ : POINT).y : ℚ))) = 100 := by
      apply double_to_int_eq
      norm_num
    rw [e1, e2]
  · norm_num [SHORT_RANGE, mouse_move_sensitivity]

/-- C8: for every integer stick axis value `v` with `|v / 32768|` above the
deadzone, `simulate_mouse_scroll` puts one wheel event for that axis in its
batch: a vertical wheel event (`MOUSEEVENTF_WHEEL`) in entry 0 for the x axis
and a horizontal wheel event (`MOUSEEVENTF_HWHEEL`) in entry 1 for the y
axis, with the tick count `80 * v / 32768` truncated toward zero and stored
as a 32 bit value (a negative count modulo `2^32`); the other entry carries
no event of that wheel. -/
theorem mouse_scroll_ticks (v : Int) (w : ℚ)
    (h : |(v : ℚ) / SHORT_RANGE| > analog_stick_deadzone) :
    (∃ i1, simulate_mouse_scroll v w =
        [Call.SendInput [⟨INPUT_MOUSE, 0, 0, spec_ticks v, MOUSEEVENTF_WHEEL⟩, i1]] ∧
      ∀ d, Action.wheel d ∉ i1.actions) ∧
    (∃ i0, simulate_mouse_scroll w v =
        [Call.SendInput [i0, ⟨INPUT_MOUSE, 0, 0, spec_ticks v, MOUSEEVENTF_HWHEEL⟩]] ∧
      ∀ d, Action.hwheel d ∉ i0.actions) ∧
    INPUT.actions ⟨INPUT_MOUSE, 0, 0, spec_ticks v, MOUSEEVENTF_WHEEL⟩ =
      [Action.wheel (spec_ticks v)] ∧
    INPUT.actions ⟨INPUT_MOUSE, 0, 0, spec_ticks v, MOUSEEVENTF_HWHEEL⟩ =
      [Action.hwheel (spec_ticks v)] ∧
    spec_ticks v < 4294967296 := by
  have hv : out_deadzone (v : ℚ) = true := out_deadzone_true _ h
  refine ⟨?_, ?_, wheel_entry_actions _, hwheel_entry_actions _, ?_⟩
  · rw [simulate_mouse_scroll_eq, hv, if_pos rfl, scroll_ticks_eq]
    exact ⟨_, rfl, not_wheel_of_x_second w⟩
  · rw [simulate_mouse_scroll_eq, hv, if_pos rfl, scroll_ticks_eq]
    exact ⟨_, rfl, not_hwheel_of_y_first w⟩
  · rw [← scroll_ticks_eq]
    exact Nat.mod_lt _ (by norm_num)

/-- Witness for `mouse_scroll_ticks`: the axis value -16384 (half deflection
to the negative side) scrolls by -40 ticks, stored as `2^32 - 40`. -/
theorem mouse_scroll_ticks_witness :
    |((-16384 : Int) : ℚ) / SHORT_RANGE| > analog_stick_deadzone ∧
    spec_ticks (-16384) = 4294967256 ∧
    ∃ i1, simulate_mouse_scroll ((-16384 : Int) : ℚ) 0 =
        [Call.SendInput [⟨INPUT_MOUSE, 0, 0, spec_ticks (-16384), MOUSEEVENTF_WHEEL⟩, i1]] ∧
      ∀ d, Action.wheel d ∉ i1.actions := by
  have h : |((-16384 : Int) : ℚ) / SHORT_RANGE| > analog_stick_deadzone := by
    norm_num [SHORT_RANGE, analog_stick_deadzone, abs_of_nonneg]
  exact ⟨h, by decide, (mouse_scroll_ticks (-16384) 0 h).1⟩

/-! ## Lemmas for the unmapped masks and the two trigger translators -/

/-- A mask that is none of the 14 `GAMEPAD_BUTTON` values reaches `default`. -/
theorem simulate_keyboard_default (m b : Nat) (hm : m < 65536) (hs : single_button m = false)
    (hne : m ≠ b) :
    simulate_keyboard m b = Run.returns m [Call.SendInput
      [⟨INPUT_KEYBOARD, 0, 0, 0, 0⟩, ⟨INPUT_KEYBOARD, 0, KEYEVENTF_KEYUP, 0, 0⟩]] := by
  have hnot : ¬ m ∈ [GAMEPAD_BUTTON.UP, GAMEPAD_BUTTON.DOWN, GAMEPAD_BUTTON.LEFT,
      GAMEPAD_BUTTON.RIGHT, GAMEPAD_BUTTON.ESCAPE, GAMEPAD_BUTTON.START, GAMEPAD_BUTTON.LEFT_STICK,
      GAMEPAD_BUTTON.RIGHT_STICK, GAMEPAD_BUTTON.LEFT_SHOULDER, GAMEPAD_BUTTON.RIGHT_SHOULDER,
      GAMEPAD_BUTTON.A, GAMEPAD_BUTTON.B, GAMEPAD_BUTTON.X, GAMEPAD_BUTTON.Y] :=
    of_decide_eq_false hs
  have hUP : ¬ m = GAMEPAD_BUTTON.UP := fun e => hnot (by rw [e]; decide)
  have hDOWN : ¬ m = GAMEPAD_BUTTON.DOWN := fun e => hnot (by rw [e]; decide)
  have hLEFT : ¬ m = GAMEPAD_BUTTON.LEFT := fun e => hnot (by rw [e]; decide)
  have hRIGHT : ¬ m = GAMEPAD_BUTTON.RIGHT := fun e => hnot (by rw [e]; decide)
  have hESCAPE : ¬ m = GAMEPAD_BUTTON.ESCAPE := fun e => hnot (by rw [e]; decide)
  have hSTART : ¬ m = GAMEPAD_BUTTON.START := fun e => hnot (by rw [e]; decide)
  have hLEFT_STICK : ¬ m = GAMEPAD_BUTTON.LEFT_STICK := fun e => hnot (by rw [e]; decide)
  have hRIGHT_STICK : ¬ m = GAMEPAD_BUTTON.RIGHT_STICK := fun e => hnot (by rw [e]; decide)
  have hLEFT_SHOULDER : ¬ m = GAMEPAD_BUTTON.LEFT_SHOULDER := fun e => hnot (by rw [e]; decide)
  have hRIGHT_SHOULDER : ¬ m = GAMEPAD_BUTTON.RIGHT_SHOULDER := fun e => hnot (by rw [e]; decide)
  have hA : ¬ m = GAMEPAD_BUTTON.A := fun e => hnot (by rw [e]; decide)
  have hB : ¬ m = GAMEPAD_BUTTON.B := fun e => hnot (by rw [e]; decide)
  have hX : ¬ m = GAMEPAD_BUTTON.X := fun e => hnot (by rw [e]; decide)
  have hY : ¬ m = GAMEPAD_BUTTON.Y := fun e => hnot (by rw [e]; decide)
  have hd : toDWORD m = m := toDWORD_of_lt (lt_trans hm (by decide))
  have h0 : ¬ toDWORD m = b := by rw [hd]; exact hne
  unfold simulate_keyboard
  rw [if_neg h0]
  dsimp only
  rw [if_neg hUP, if_neg hDOWN, if_neg hLEFT, if_neg hRIGHT, if_neg hESCAPE, if_neg hSTART, if_neg hLEFT_STICK, if_neg hRIGHT_STICK, if_neg hLEFT_SHOULDER, if_neg hRIGHT_SHOULDER, if_neg hA, if_neg hB, if_neg hX, if_neg hY, hd]
  rfl

/-- Two different buttons held together are none of the 14 values, and the
combined mask differs from the mask of the button held first. -/
theorem combination_not_single :
    ∀ a ∈ [GAMEPAD_BUTTON.UP, GAMEPAD_BUTTON.DOWN, GAMEPAD_BUTTON.LEFT,
      GAMEPAD_BUTTON.RIGHT, GAMEPAD_BUTTON.ESCAPE, GAMEPAD_BUTTON.START, GAMEPAD_BUTTON.LEFT_STICK,
      GAMEPAD_BUTTON.RIGHT_STICK, GAMEPAD_BUTTON.LEFT_SHOULDER, GAMEPAD_BUTTON.RIGHT_SHOULDER,
      GAMEPAD_BUTTON.A, GAMEPAD_BUTTON.B, GAMEPAD_BUTTON.X, GAMEPAD_BUTTON.Y],
    ∀ c ∈ [GAMEPAD_BUTTON.UP, GAMEPAD_BUTTON.DOWN, GAMEPAD_BUTTON.LEFT,
      GAMEPAD_BUTTON.RIGHT, GAMEPAD_BUTTON.ESCAPE, GAMEPAD_BUTTON.START, GAMEPAD_BUTTON.LEFT_STICK,
      GAMEPAD_BUTTON.RIGHT_STICK, GAMEPAD_BUTTON.LEFT_SHOULDER, GAMEPAD_BUTTON.RIGHT_SHOULDER,
      GAMEPAD_BUTTON.A, GAMEPAD_BUTTON.B, GAMEPAD_BUTTON.X, GAMEPAD_BUTTON.Y],
    a ≠ c → single_button (a ||| c) = false ∧ a ||| c ≠ a ∧ a ||| c < 65536 := by
  decide

theorem rename_left_right_zero : rename_left_right INPUT.zero = INPUT.zero := by decide

/-- The right-button translator is the left-button translator with the button
renamed. -/
theorem simulate_right_mouse_rename (m b : Nat) :
    simulate_right_mouse m b =
      ((simulate_left_mouse m b).1, rename_calls (simulate_left_mouse m b).2) := by
  cases h : trigger_activated m
  · by_cases hb : b = 2
    · simp only [simulate_left_mouse, simulate_right_mouse, h, if_pos hb, Bool.false_eq_true,
        if_false, rename_calls]
    · simp only [simulate_left_mouse, simulate_right_mouse, h, if_neg hb, Bool.false_eq_true,
        if_false]
      decide
  · by_cases hb : b = 1
    · simp only [simulate_left_mouse, simulate_right_mouse, h, if_pos hb, if_true, rename_calls]
    · simp only [simulate_left_mouse, simulate_right_mouse, h, if_neg hb, if_true]
      decide

theorem spec_keymap_ne_key_zero (c : Nat) : spec_keymap c ≠ some (Target.key 0) := by
  intro h
  unfold spec_keymap at h
  by_cases hc : c = 1
  · rw [if_pos hc] at h
    exact absurd h (by decide)
  rw [if_neg hc] at h
  clear hc
  by_cases hc : c = 2
  · rw [if_pos hc] at h
    exact absurd h (by decide)
  rw [if_neg hc] at h
  clear hc
  by_cases hc : c = 4
  · rw [if_pos hc] at h
    exact absurd h (by decide)
  rw [if_neg hc] at h
  clear hc
  by_cases hc : c = 8
  · rw [if_pos hc] at h
    exact absurd h (by decide)
  rw [if_neg hc] at h
  clear hc
  by_cases hc : c = 32
  · rw [if_pos hc] at h
    exact absurd h (by decide)
  rw [if_neg hc] at h
  clear hc
  by_cases hc : c = 64
  · rw [if_pos hc] at h
    exact absurd h (by decide)
  rw [if_neg hc] at h
  clear hc
  by_cases hc : c = 128
  · rw [if_pos hc] at h
    exact absurd h (by decide)
  rw [if_neg hc] at h
  clear hc
  by_cases hc : c = 256
  · rw [if_pos hc] at h
    exact absurd h (by decide)
  rw [if_neg hc] at h
  clear hc
  by_cases hc : c = 512
  · rw [if_pos hc] at h
    exact absurd h (by decide)
  rw [if_neg hc] at h
  clear hc
  by_cases hc : c = 4096
  · rw [if_pos hc] at h
    exact absurd h (by decide)
  rw [if_neg hc] at h
  clear hc
  by_cases hc : c = 8192
  · rw [if_pos hc] at h
    exact absurd h (by decide)
  rw [if_neg hc] at h
  clear hc
  by_cases hc : c = 16384
  · rw [if_pos hc] at h
    exact absurd h (by decide)
  rw [if_neg hc] at h
  clear hc
  by_cases hc : c = 32768
  · rw [if_pos hc] at h
    exact absurd h (by decide)
  rw [if_neg hc] at h
  clear hc
  cases h

/-- With the x axis outside and the y axis inside the deadzone the pointer is
moved along x only, to the truncated quotient. -/
theorem simulate_mouse_movement_x_only (point : POINT) (v : Int) (w : ℚ)
    (hv : out_deadzone (v : ℚ) = true) (hw : out_deadzone w = false) :
    simulate_mouse_movement point v w =
      [Call.SetCursorPos ((32768 * point.x + 15 * v).tdiv 32768) point.y] := by
  have ex : (point.x : ℚ) + (v : ℚ) / SHORT_RANGE * mouse_move_sensitivity =
      ((32768 * point.x + 15 * v : Int) : ℚ) / ((32768 : Nat) : ℚ) := by
    unfold SHORT_RANGE mouse_move_sensitivity
    push_cast
    ring
  rw [simulate_mouse_movement_x point v w hv, hw, ex, double_to_int_div _ _ (by norm_num)]
  simp only [Bool.false_eq_true, if_false, double_to_int_intCast]
  rfl

theorem out_deadzone_int (v : Int) : out_deadzone (v : ℚ) = true ↔ 4916 ≤ |v| := by
  constructor
  · intro h
    by_contra hc
    have h1 : |v| ≤ 4915 := by omega
    rw [out_deadzone_false _ ((deadzone_int v).mpr h1)] at h
    cases h
  · intro h
    apply out_deadzone_true
    by_contra hc
    have h1 := (deadzone_int v).mp (not_lt.mp hc)
    omega

theorem submitted_append (c1 c2 : List Call) :
    submitted (c1 ++ c2) = submitted c1 ++ submitted c2 := by
  induction c1 with
  | nil => rfl
  | cons c cs ih =>
    cases c with
    | SendInput inputs => simp [submitted, ih]
    | SetCursorPos x y => simp [submitted, ih]

theorem blank_iff (i : INPUT) : i.blank = true ↔ i = INPUT.zero := by
  unfold INPUT.blank
  exact decide_eq_true_iff

theorem not_blank_of_actions (i : INPUT) (a : Action) (h : i.actions = [a]) :
    i.blank = false := by
  rw [← Bool.not_eq_true, blank_iff]
  intro e
  rw [e, zero_entry_actions] at h
  cases h

/-! ## Theorems on unmapped masks, blank entries and the shape of the translators -/

/-- C18: for every 16 bit button mask `m` that is none of the 14 single-button
values (0, or a combination such as 1|4096 = 4097, also one containing the
escape bit) and every buffer `b ≠ m`, `simulate_keyboard` returns (it does not
end the process), sends a keyboard down/up pair whose virtual-key code is 0,
and sets the buffer to `m`; hence pressing a second button while the first is
held (the buffer holding the first button) sends that pair and not the mapped
key of the second button. -/
theorem unmapped_mask_sends_key_zero :
    (∀ m b : Nat, m < 65536 → single_button m = false → m ≠ b →
      simulate_keyboard m b = Run.returns m [Call.SendInput
        [⟨INPUT_KEYBOARD, 0, 0, 0, 0⟩, ⟨INPUT_KEYBOARD, 0, KEYEVENTF_KEYUP, 0, 0⟩]] ∧
      events (simulate_keyboard m b).calls =
        [Action.down (Target.key 0), Action.up (Target.key 0)]) ∧
    single_button 0 = false ∧ single_button (1 ||| 4096) = false ∧
    single_button (16 ||| 1) = false ∧
    (∀ a c : Nat, single_button a = true → single_button c = true → a ≠ c →
      events (simulate_keyboard (a ||| c) a).calls =
        [Action.down (Target.key 0), Action.up (Target.key 0)] ∧
      ∀ t, spec_keymap c = some t → Action.down t ∉ events (simulate_keyboard (a ||| c) a).calls) := by
  have main : ∀ m b : Nat, m < 65536 → single_button m = false → m ≠ b →
      simulate_keyboard m b = Run.returns m [Call.SendInput
        [⟨INPUT_KEYBOARD, 0, 0, 0, 0⟩, ⟨INPUT_KEYBOARD, 0, KEYEVENTF_KEYUP, 0, 0⟩]] ∧
      events (simulate_keyboard m b).calls =
        [Action.down (Target.key 0), Action.up (Target.key 0)] := by
    intro m b hm hs hne
    have h := simulate_keyboard_default m b hm hs hne
    refine ⟨h, ?_⟩
    rw [h]
    rfl
  refine ⟨main, by decide, by decide, by decide, fun a c ha hc hac => ?_⟩
  obtain ⟨h1, h2, h3⟩ := combination_not_single a (of_decide_eq_true ha) c (of_decide_eq_true hc) hac
  have he := (main (a ||| c) a h3 h1 h2).2
  refine ⟨he, fun t ht hmem => ?_⟩
  rw [he] at hmem
  simp only [List.mem_cons, List.mem_singleton, Action.down.injEq, List.mem_nil_iff, or_false]
    at hmem
  rcases hmem with h | h
  · rw [h] at ht
    exact spec_keymap_ne_key_zero c ht
  · cases h

/-- Witness for `unmapped_mask_sends_key_zero`: A (4096) pressed while D-pad up
(1) is held sends the pair for virtual key 0 and the buffer becomes 4097. -/
theorem unmapped_mask_sends_key_zero_witness :
    simulate_keyboard 4097 1 = Run.returns 4097 [Call.SendInput
      [⟨INPUT_KEYBOARD, 0, 0, 0, 0⟩, ⟨INPUT_KEYBOARD, 0, KEYEVENTF_KEYUP, 0, 0⟩]] ∧
    events (simulate_keyboard 4097 1).calls =
      [Action.down (Target.key 0), Action.up (Target.key 0)] :=
  unmapped_mask_sends_key_zero.1 4097 1 (by decide) (by decide) (by decide)

/-- C20: `simulate_right_mouse` is `simulate_left_mouse` with the mouse button
renamed: for every magnitude and buffer value the new buffer value is the
same, the calls of the one are the calls of the other with
`MOUSEEVENTF_LEFTDOWN`, `MOUSEEVENTF_LEFTUP` replaced by
`MOUSEEVENTF_RIGHTDOWN`, `MOUSEEVENTF_RIGHTUP`, both return without a call in
the same cases, and both have the press in entry 0 and the release in entry 1
of a batch whose other entry is all-zero. -/
theorem trigger_translators_same_up_to_button (m b : Nat) :
    (simulate_right_mouse m b).1 = (simulate_left_mouse m b).1 ∧
    (simulate_right_mouse m b).2 = rename_calls (simulate_left_mouse m b).2 ∧
    (((simulate_left_mouse m b).2 = [] ∧ (simulate_right_mouse m b).2 = []) ∨
     ((simulate_left_mouse m b).2 =
        [Call.SendInput [⟨INPUT_MOUSE, 0, 0, 0, MOUSEEVENTF_LEFTDOWN⟩, INPUT.zero]] ∧
      (simulate_right_mouse m b).2 =
        [Call.SendInput [⟨INPUT_MOUSE, 0, 0, 0, MOUSEEVENTF_RIGHTDOWN⟩, INPUT.zero]]) ∨
     ((simulate_left_mouse m b).2 =
        [Call.SendInput [INPUT.zero, ⟨INPUT_MOUSE, 0, 0, 0, MOUSEEVENTF_LEFTUP⟩]] ∧
      (simulate_right_mouse m b).2 =
        [Call.SendInput [INPUT.zero, ⟨INPUT_MOUSE, 0, 0, 0, MOUSEEVENTF_RIGHTUP⟩]])) := by
  have hr := simulate_right_mouse_rename m b
  refine ⟨by rw [hr], by rw [hr], ?_⟩
  cases h : trigger_activated m
  · by_cases hb : b = 2
    · left
      simp only [simulate_left_mouse, simulate_right_mouse, h, if_pos hb, Bool.false_eq_true,
        if_false, and_self]
    · right; right
      simp only [simulate_left_mouse, simulate_right_mouse, h, if_neg hb, Bool.false_eq_true,
        if_false]
      exact ⟨rfl, rfl⟩
  · by_cases hb : b = 1
    · left
      simp only [simulate_left_mouse, simulate_right_mouse, h, if_pos hb, if_true, and_self]
    · right; left
      simp only [simulate_left_mouse, simulate_right_mouse, h, if_neg hb, if_true]
      exact ⟨rfl, rfl⟩

theorem out_deadzone_zero : out_deadzone 0 = false := by
  norm_num [out_deadzone, SHORT_RANGE, analog_stick_deadzone]

theorem wheel_entry_not_zero (d : Nat) :
    (⟨INPUT_MOUSE, 0, 0, d, MOUSEEVENTF_WHEEL⟩ : INPUT) ≠ INPUT.zero := by
  intro h
  have h3 : MOUSEEVENTF_WHEEL = 0 := congrArg INPUT.w3 h
  exact absurd h3 (by decide)

theorem hwheel_entry_not_zero (d : Nat) :
    (⟨INPUT_MOUSE, 0, 0, d, MOUSEEVENTF_HWHEEL⟩ : INPUT) ≠ INPUT.zero := by
  intro h
  have h3 : MOUSEEVENTF_HWHEEL = 0 := congrArg INPUT.w3 h
  exact absurd h3 (by decide)

/-- The entries of a call of a trigger translator: none, or one entry with
one action beside an all-zero entry. -/
theorem trigger_submitted (sim : Nat → Nat → Nat × List Call) (down up : INPUT)
    (hd : ∃ a, down.actions = [a]) (hu : ∃ a, up.actions = [a])
    (hsim : ∀ m b, (sim m b).2 = [] ∨ (sim m b).2 = [Call.SendInput [down, INPUT.zero]] ∨
      (sim m b).2 = [Call.SendInput [INPUT.zero, up]]) (m b : Nat) :
    (sim m b).2 = [] ∨
    ∃ i, i.blank = false ∧ (∃ a, i.actions = [a]) ∧
      (submitted (sim m b).2 = [i, INPUT.zero] ∨ submitted (sim m b).2 = [INPUT.zero, i]) := by
  rcases hsim m b with h | h | h
  · exact Or.inl h
  · right
    obtain ⟨a, ha⟩ := hd
    exact ⟨down, not_blank_of_actions _ a ha, ⟨a, ha⟩, Or.inl (by rw [h]; rfl)⟩
  · right
    obtain ⟨a, ha⟩ := hu
    exact ⟨up, not_blank_of_actions _ a ha, ⟨a, ha⟩, Or.inr (by rw [h]; rfl)⟩

theorem simulate_left_mouse_shape (m b : Nat) :
    (simulate_left_mouse m b).2 = [] ∨
    (simulate_left_mouse m b).2 =
      [Call.SendInput [⟨INPUT_MOUSE, 0, 0, 0, MOUSEEVENTF_LEFTDOWN⟩, INPUT.zero]] ∨
    (simulate_left_mouse m b).2 =
      [Call.SendInput [INPUT.zero, ⟨INPUT_MOUSE, 0, 0, 0, MOUSEEVENTF_LEFTUP⟩]] := by
  cases h : trigger_activated m
  · by_cases hb : b = 2
    · left
      simp only [simulate_left_mouse, h, if_pos hb, Bool.false_eq_true, if_false]
    · right; right
      simp only [simulate_left_mouse, h, if_neg hb, Bool.false_eq_true, if_false]
      rfl
  · by_cases hb : b = 1
    · left
      simp only [simulate_left_mouse, h, if_pos hb, if_true]
    · right; left
      simp only [simulate_left_mouse, h, if_neg hb, if_true]
      rfl

theorem simulate_right_mouse_shape (m b : Nat) :
    (simulate_right_mouse m b).2 = [] ∨
    (simulate_right_mouse m b).2 =
      [Call.SendInput [⟨INPUT_MOUSE, 0, 0, 0, MOUSEEVENTF_RIGHTDOWN⟩, INPUT.zero]] ∨
    (simulate_right_mouse m b).2 =
      [Call.SendInput [INPUT.zero, ⟨INPUT_MOUSE, 0, 0, 0, MOUSEEVENTF_RIGHTUP⟩]] := by
  cases h : trigger_activated m
  · by_cases hb : b = 2
    · left
      simp only [simulate_right_mouse, h, if_pos hb, Bool.false_eq_true, if_false]
    · right; right
      simp only [simulate_right_mouse, h, if_neg hb, Bool.false_eq_true, if_false]
      rfl
  · by_cases hb : b = 1
    · left
      simp only [simulate_right_mouse, h, if_pos hb, if_true]
    · right; left
      simp only [simulate_right_mouse, h, if_neg hb, if_true]
      rfl

/-- C17 (as amended): every batch a translator submits has two entries.  Each
entry of a batch of `simulate_keyboard` carries one action (also for a mask
with no mapped target).  A trigger translator submits a batch only on an edge,
and that batch has one entry with the button action and one all-zero
placeholder.  `simulate_mouse_scroll` submits a batch on every call, in which
the entry of an axis is an all-zero placeholder exactly when that axis is
inside the deadzone.  `simulate_mouse_movement` submits no batch.  An all-zero
entry carries no action. -/
theorem submitted_entries_live_or_blank :
    (∀ (m b : Nat) (i : INPUT), i ∈ submitted (simulate_keyboard m b).calls →
      i.blank = false ∧ ∃ a, i.actions = [a]) ∧
    (∀ m b : Nat, (simulate_left_mouse m b).2 = [] ∨
      ∃ i, i.blank = false ∧ (∃ a, i.actions = [a]) ∧
        (submitted (simulate_left_mouse m b).2 = [i, INPUT.zero] ∨
         submitted (simulate_left_mouse m b).2 = [INPUT.zero, i])) ∧
    (∀ m b : Nat, (simulate_right_mouse m b).2 = [] ∨
      ∃ i, i.blank = false ∧ (∃ a, i.actions = [a]) ∧
        (submitted (simulate_right_mouse m b).2 = [i, INPUT.zero] ∨
         submitted (simulate_right_mouse m b).2 = [INPUT.zero, i])) ∧
    (∀ x y : ℚ, ∃ i0 i1, simulate_mouse_scroll x y = [Call.SendInput [i0, i1]] ∧
      (i0.blank = true ↔ out_deadzone x = false) ∧ (i1.blank = true ↔ out_deadzone y = false)) ∧
    (∀ (point : POINT) (x y : ℚ), submitted (simulate_mouse_movement point x y) = []) ∧
    INPUT.zero.actions = [] := by
  refine ⟨fun m b i hi => ?_, ?_, ?_, fun x y => ?_, fun point x y => ?_, rfl⟩
  · rcases simulate_keyboard_cases m b with ⟨_, hk⟩ | ⟨_, _, hk⟩ | ⟨_, _, i0, i1, t, hk, h0, h1⟩
    · rw [hk] at hi; cases hi
    · rw [hk] at hi; cases hi
    · rw [hk] at hi
      simp only [Run.calls, submitted, List.append_nil, List.mem_cons, List.mem_singleton,
        List.mem_nil_iff, or_false] at hi
      rcases hi with rfl | rfl
      · exact ⟨not_blank_of_actions _ _ h0, _, h0⟩
      · exact ⟨not_blank_of_actions _ _ h1, _, h1⟩
  · exact trigger_submitted simulate_left_mouse _ _ ⟨Action.down Target.mouse_left, by decide⟩
      ⟨Action.up Target.mouse_left, by decide⟩ simulate_left_mouse_shape
  · exact trigger_submitted simulate_right_mouse _ _ ⟨Action.down Target.mouse_right, by decide⟩
      ⟨Action.up Target.mouse_right, by decide⟩ simulate_right_mouse_shape
  · refine ⟨_, _, simulate_mouse_scroll_eq x y, ?_, ?_⟩
    · cases hx : out_deadzone x
      · simp only [Bool.false_eq_true, if_false, blank_iff]
      · simp only [if_true, blank_iff, Bool.true_eq_false, iff_false]
        exact wheel_entry_not_zero _
    · cases hy : out_deadzone y
      · simp only [Bool.false_eq_true, if_false, blank_iff]
      · simp only [if_true, blank_iff, Bool.true_eq_false, iff_false]
        exact hwheel_entry_not_zero _
  · unfold simulate_mouse_movement
    dsimp only
    split_ifs <;> rfl

/-- C17 as stated fails: with both scroll axes at rest `simulate_mouse_scroll`
submits a batch of two all-zero entries, which carry no action, and on a
trigger edge `simulate_left_mouse` submits an all-zero entry beside the press. -/
theorem blank_entries_are_submitted :
    simulate_mouse_scroll 0 0 = [Call.SendInput [INPUT.zero, INPUT.zero]] ∧
    INPUT.zero.actions = [] ∧
    INPUT.zero ∈ submitted (simulate_mouse_scroll 0 0) ∧
    INPUT.zero ∈ submitted (simulate_left_mouse 255 2).2 := by
  have h : simulate_mouse_scroll 0 0 = [Call.SendInput [INPUT.zero, INPUT.zero]] := by
    rw [simulate_mouse_scroll_eq, out_deadzone_zero]
    rfl
  have ha : trigger_activated 255 = true := (trigger_activated_iff 255).mpr (le_refl _)
  have hl : (simulate_left_mouse 255 2).2 =
      [Call.SendInput [⟨INPUT_MOUSE, 0, 0, 0, MOUSEEVENTF_LEFTDOWN⟩, INPUT.zero]] := by
    simp only [simulate_left_mouse, ha, if_true]
    rfl
  refine ⟨h, rfl, ?_, ?_⟩
  · rw [h]; decide
  · rw [hl]; decide

/-- C19: for every axis value `v` with `4916 <= v <= 32767`, every pointer
position (a pair of `LONG`s) with `x >= 15` from which the move to the right
stays within `int`, and the y axis inside the deadzone,
`simulate_mouse_movement` with the x axis at `+v` moves the pointer right by
`floor (15 * v / 32768)` pixels and with the x axis at `-v` moves it left by
`floor (15 * v / 32768) + 1` pixels, leaving y as it is; every coordinate
passed fits `int`. -/
theorem mouse_movement_asymmetric (v px py : Int) (w : ℚ) (hv : 4916 ≤ v ∧ v ≤ 32767)
    (hp : 15 ≤ px) (hx : px + (15 * v) / 32768 ≤ INT_MAX) (hy : fits_int py)
    (hw : |w / SHORT_RANGE| ≤ analog_stick_deadzone) :
    simulate_mouse_movement ⟨px, py⟩ (v : ℚ) w =
      [Call.SetCursorPos (px + (15 * v) / 32768) py] ∧
    simulate_mouse_movement ⟨px, py⟩ ((-v : Int) : ℚ) w =
      [Call.SetCursorPos (px - ((15 * v) / 32768 + 1)) py] ∧
    (15 * v) / 32768 = ⌊(15 * v : ℚ) / 32768⌋ ∧
    fits_int px ∧ fits_int (px + (15 * v) / 32768) ∧ fits_int (px - ((15 * v) / 32768 + 1)) ∧
    fits_int py := by
  have hw1 : out_deadzone w = false := out_deadzone_false _ hw
  have hv1 : out_deadzone (v : ℚ) = true := (out_deadzone_int v).mpr (by rw [abs_of_nonneg] <;> omega)
  have hv2 : out_deadzone ((-v : Int) : ℚ) = true :=
    (out_deadzone_int (-v)).mpr (by rw [abs_neg, abs_of_nonneg] <;> omega)
  have hmax : px + (15 * v) / 32768 ≤ 2147483647 := hx
  refine ⟨?_, ?_, ?_, ?_, ?_, ?_, hy⟩
  · rw [simulate_mouse_movement_x_only _ v w hv1 hw1]
    show [Call.SetCursorPos ((32768 * px + 15 * v).tdiv 32768) py] = _
    rw [Int.tdiv_eq_ediv (by omega) (by norm_num)]
    have e : (32768 * px + 15 * v) / 32768 = px + (15 * v) / 32768 := by
      clear hx hmax
      omega
    rw [e]
  · rw [simulate_mouse_movement_x_only _ (-v) w hv2 hw1]
    show [Call.SetCursorPos ((32768 * px + 15 * -v).tdiv 32768) py] = _
    rw [Int.tdiv_eq_ediv (by omega) (by norm_num)]
    have e : (32768 * px + 15 * -v) / 32768 = px - ((15 * v) / 32768 + 1) := by
      clear hx hmax
      omega
    rw [e]
  · have h := Rat.floor_intCast_div_natCast (15 * v) 32768
    push_cast at h
    rw [h]
  · unfold fits_int INT_MIN INT_MAX
    omega
  · unfold fits_int INT_MIN INT_MAX
    omega
  · unfold fits_int INT_MIN INT_MAX
    omega

/-- Witness for `mouse_movement_asymmetric`: half deflection (16384) from
x = 100 moves right by 7 to 107, the opposite deflection moves left by 8 to 92. -/
theorem mouse_movement_asymmetric_witness :
    simulate_mouse_movement ⟨100, 100⟩ ((16384 : Int) : ℚ) 0 = [Call.SetCursorPos 107 100] ∧
    simulate_mouse_movement ⟨100, 100⟩ ((-16384 : Int) : ℚ) 0 = [Call.SetCursorPos 92 100] := by
  have h0 : |(0 : ℚ) / SHORT_RANGE| ≤ analog_stick_deadzone := by
    norm_num [SHORT_RANGE, analog_stick_deadzone]
  have t := mouse_movement_asymmetric 16384 100 100 0 (by decide) (by decide) (by decide)
    (by decide) h0
  exact ⟨t.1, t.2.1⟩

/-! ## Lemmas on one iteration of `main` -/

/-- The calls of `simulate_keyboard`: none, or one batch pressing and releasing
a key or the middle mouse button. -/
theorem simulate_keyboard_calls_kind (m b : Nat) :
    (simulate_keyboard m b).calls = [] ∨
    ∃ i0 i1 t, (simulate_keyboard m b).calls = [Call.SendInput [i0, i1]] ∧
      i0.actions = [Action.down t] ∧ i1.actions = [Action.up t] ∧
      (t = Target.mouse_middle ∨ ∃ vk, t = Target.key vk) := by
  by_cases h : toDWORD m = b
  · left
    rw [simulate_keyboard_same m b h]
    rfl
  · unfold simulate_keyboard
    rw [if_neg h]
    dsimp only
    by_cases hc : m = GAMEPAD_BUTTON.UP
    · rw [if_pos hc]; exact Or.inr ⟨_, _, _, rfl, rfl, rfl, Or.inr ⟨_, rfl⟩⟩
    rw [if_neg hc]
    clear hc
    by_cases hc : m = GAMEPAD_BUTTON.DOWN
    · rw [if_pos hc]; exact Or.inr ⟨_, _, _, rfl, rfl, rfl, Or.inr ⟨_, rfl⟩⟩
    rw [if_neg hc]
    clear hc
    by_cases hc : m = GAMEPAD_BUTTON.LEFT
    · rw [if_pos hc]; exact Or.inr ⟨_, _, _, rfl, rfl, rfl, Or.inr ⟨_, rfl⟩⟩
    rw [if_neg hc]
    clear hc
    by_cases hc : m = GAMEPAD_BUTTON.RIGHT
    · rw [if_pos hc]; exact Or.inr ⟨_, _, _, rfl, rfl, rfl, Or.inr ⟨_, rfl⟩⟩
    rw [if_neg hc]
    clear hc
    by_cases hc : m = GAMEPAD_BUTTON.ESCAPE
    · rw [if_pos hc]; exact Or.inl rfl
    rw [if_neg hc]
    clear hc
    by_cases hc : m = GAMEPAD_BUTTON.START
    · rw [if_pos hc]; exact Or.inr ⟨_, _, _, rfl, rfl, rfl, Or.inr ⟨_, rfl⟩⟩
    rw [if_neg hc]
    clear hc
    by_cases hc : m = GAMEPAD_BUTTON.LEFT_STICK
    · rw [if_pos hc]; exact Or.inr ⟨_, _, _, rfl, rfl, rfl, Or.inr ⟨_, rfl⟩⟩
    rw [if_neg hc]
    clear hc
    by_cases hc : m = GAMEPAD_BUTTON.RIGHT_STICK
    · rw [if_pos hc]; exact Or.inr ⟨_, _, _, rfl, rfl, rfl, Or.inl rfl⟩
    rw [if_neg hc]
    clear hc
    by_cases hc : m = GAMEPAD_BUTTON.LEFT_SHOULDER
    · rw [if_pos hc]; exact Or.inr ⟨_, _, _, rfl, rfl, rfl, Or.inr ⟨_, rfl⟩⟩
    rw [if_neg hc]
    clear hc
    by_cases hc : m = GAMEPAD_BUTTON.RIGHT_SHOULDER
    · rw [if_pos hc]; exact Or.inr ⟨_, _, _, rfl, rfl, rfl, Or.inr ⟨_, rfl⟩⟩
    rw [if_neg hc]
    clear hc
    by_cases hc : m = GAMEPAD_BUTTON.A
    · rw [if_pos hc]; exact Or.inr ⟨_, _, _, rfl, rfl, rfl, Or.inr ⟨_, rfl⟩⟩
    rw [if_neg hc]
    clear hc
    by_cases hc : m = GAMEPAD_BUTTON.B
    · rw [if_pos hc]; exact Or.inr ⟨_, _, _, rfl, rfl, rfl, Or.inr ⟨_, rfl⟩⟩
    rw [if_neg hc]
    clear hc
    by_cases hc : m = GAMEPAD_BUTTON.X
    · rw [if_pos hc]; exact Or.inr ⟨_, _, _, rfl, rfl, rfl, Or.inr ⟨_, rfl⟩⟩
    rw [if_neg hc]
    clear hc
    by_cases hc : m = GAMEPAD_BUTTON.Y
    · rw [if_pos hc]; exact Or.inr ⟨_, _, _, rfl, rfl, rfl, Or.inr ⟨_, rfl⟩⟩
    rw [if_neg hc]
    clear hc
    exact Or.inr ⟨_, _, _, rfl, rfl, rfl, Or.inr ⟨_, rfl⟩⟩

theorem pointer_calls_append (c1 c2 : List Call) :
    pointer_calls (c1 ++ c2) = pointer_calls c1 ++ pointer_calls c2 := by
  unfold pointer_calls
  exact List.filter_append _ _

theorem wheel_events_append (c1 c2 : List Call) :
    wheel_events (c1 ++ c2) = wheel_events c1 ++ wheel_events c2 := by
  unfold wheel_events
  rw [events_append, List.filter_append]

theorem button_events_append (t : Target) (c1 c2 : List Call) :
    button_events t (c1 ++ c2) = button_events t c1 ++ button_events t c2 := by
  unfold button_events
  rw [events_append, List.filter_append]

/-- The calls of `simulate_keyboard` hold no pointer call, no wheel event and
no event of the left or right mouse button. -/
theorem simulate_keyboard_projections (m b : Nat) :
    pointer_calls (simulate_keyboard m b).calls = [] ∧
    wheel_events (simulate_keyboard m b).calls = [] ∧
    button_events Target.mouse_left (simulate_keyboard m b).calls = [] ∧
    button_events Target.mouse_right (simulate_keyboard m b).calls = [] := by
  rcases simulate_keyboard_calls_kind m b with h | ⟨i0, i1, t, h, h0, h1, ht⟩
  · rw [h]
    exact ⟨rfl, rfl, rfl, rfl⟩
  · rw [h]
    have he : events [Call.SendInput [i0, i1]] = [Action.down t, Action.up t] :=
      events_pair i0 i1 _ _ h0 h1
    refine ⟨rfl, ?_, ?_, ?_⟩
    · unfold wheel_events
      rw [he]
      rfl
    · unfold button_events
      rw [he]
      rcases ht with rfl | ⟨vk, rfl⟩
      · rfl
      · simp [on_target]
    · unfold button_events
      rw [he]
      rcases ht with rfl | ⟨vk, rfl⟩
      · rfl
      · simp [on_target]

/-- The calls of `simulate_mouse_movement` are pointer calls only. -/
theorem simulate_mouse_movement_projections (point : POINT) (x y : ℚ) :
    pointer_calls (simulate_mouse_movement point x y) = simulate_mouse_movement point x y ∧
    events (simulate_mouse_movement point x y) = [] := by
  unfold simulate_mouse_movement
  dsimp only
  split_ifs <;> exact ⟨rfl, rfl⟩

/-- The events of `simulate_mouse_scroll` are wheel events only. -/
theorem simulate_mouse_scroll_projections (x y : ℚ) :
    pointer_calls (simulate_mouse_scroll x y) = [] ∧
    wheel_events (simulate_mouse_scroll x y) = events (simulate_mouse_scroll x y) ∧
    button_events Target.mouse_left (simulate_mouse_scroll x y) = [] ∧
    button_events Target.mouse_right (simulate_mouse_scroll x y) = [] := by
  rw [simulate_mouse_scroll_eq]
  refine ⟨rfl, ?_, ?_, ?_⟩ <;>
    cases out_deadzone x <;> cases out_deadzone y <;>
    simp [wheel_events, button_events, on_target, events, batch_actions, zero_entry_actions,
      wheel_entry_actions, hwheel_entry_actions]

/-- The events of `simulate_left_mouse` are events of the left button only. -/
theorem simulate_left_mouse_projections (m b : Nat) :
    pointer_calls (simulate_left_mouse m b).2 = [] ∧
    wheel_events (simulate_left_mouse m b).2 = [] ∧
    button_events Target.mouse_left (simulate_left_mouse m b).2 =
      events (simulate_left_mouse m b).2 ∧
    button_events Target.mouse_right (simulate_left_mouse m b).2 = [] := by
  rcases simulate_left_mouse_shape m b with h | h | h <;> rw [h] <;> decide

/-- The events of `simulate_right_mouse` are events of the right button only. -/
theorem simulate_right_mouse_projections (m b : Nat) :
    pointer_calls (simulate_right_mouse m b).2 = [] ∧
    wheel_events (simulate_right_mouse m b).2 = [] ∧
    button_events Target.mouse_left (simulate_right_mouse m b).2 = [] ∧
    button_events Target.mouse_right (simulate_right_mouse m b).2 =
      events (simulate_right_mouse m b).2 := by
  rcases simulate_right_mouse_shape m b with h | h | h <;> rw [h] <;> decide

theorem main_connected_returns (pad : XINPUT_GAMEPAD) (point : POINT) (s : Buffers) (bb : Nat)
    (c1 : List Call) (h : simulate_keyboard pad.wButtons s.button_buffer = Run.returns bb c1) :
    main_connected pad point s = Run.returns
      ⟨bb, (simulate_left_mouse pad.bRightTrigger s.right_trigger_buffer).1,
        (simulate_right_mouse pad.bLeftTrigger s.left_trigger_buffer).1⟩
      (c1 ++ simulate_mouse_movement point pad.sThumbRX pad.sThumbRY ++
        simulate_mouse_scroll pad.sThumbLX pad.sThumbLY ++
        (simulate_left_mouse pad.bRightTrigger s.right_trigger_buffer).2 ++
        (simulate_right_mouse pad.bLeftTrigger s.left_trigger_buffer).2) := by
  simp only [main_connected, h]

theorem main_connected_quick_exit (pad : XINPUT_GAMEPAD) (point : POINT) (s : Buffers)
    (status : Int) (c1 : List Call)
    (h : simulate_keyboard pad.wButtons s.button_buffer = Run.quick_exit status c1) :
    main_connected pad point s = Run.quick_exit status c1 := by
  simp only [main_connected, h]

/-- The projections of the calls of an iteration that returns. -/
theorem iteration_calls_projections (point : POINT) (x y u v : ℚ) (rt rb lt lb : Nat)
    (c1 : List Call)
    (hk : pointer_calls c1 = [] ∧ wheel_events c1 = [] ∧
      button_events Target.mouse_left c1 = [] ∧ button_events Target.mouse_right c1 = []) :
    pointer_calls (c1 ++ simulate_mouse_movement point x y ++ simulate_mouse_scroll u v ++
        (simulate_left_mouse rt rb).2 ++ (simulate_right_mouse lt lb).2) =
      simulate_mouse_movement point x y ∧
    wheel_events (c1 ++ simulate_mouse_movement point x y ++ simulate_mouse_scroll u v ++
        (simulate_left_mouse rt rb).2 ++ (simulate_right_mouse lt lb).2) =
      events (simulate_mouse_scroll u v) ∧
    button_events Target.mouse_left (c1 ++ simulate_mouse_movement point x y ++
        simulate_mouse_scroll u v ++ (simulate_left_mouse rt rb).2 ++
        (simulate_right_mouse lt lb).2) = events (simulate_left_mouse rt rb).2 ∧
    button_events Target.mouse_right (c1 ++ simulate_mouse_movement point x y ++
        simulate_mouse_scroll u v ++ (simulate_left_mouse rt rb).2 ++
        (simulate_right_mouse lt lb).2) = events (simulate_right_mouse lt lb).2 := by
  have hm := simulate_mouse_movement_projections point x y
  have hs := simulate_mouse_scroll_projections u v
  have hl := simulate_left_mouse_projections rt rb
  have hr := simulate_right_mouse_projections lt lb
  have wm : wheel_events (simulate_mouse_movement point x y) = [] := by
    unfold wheel_events; rw [hm.2]; rfl
  have bm : ∀ t, button_events t (simulate_mouse_movement point x y) = [] := by
    intro t; unfold button_events; rw [hm.2]; rfl
  refine ⟨?_, ?_, ?_, ?_⟩
  · simp only [pointer_calls_append, hk.1, hm.1, hs.1, hl.1, hr.1, List.append_nil,
      List.nil_append]
  · simp only [wheel_events_append, hk.2.1, wm, hs.2.1, hl.2.1, hr.2.1, List.append_nil,
      List.nil_append]
  · simp only [button_events_append, hk.2.2.1, bm, hs.2.2.1, hl.2.2.1, hr.2.2.1, List.append_nil,
      List.nil_append]
  · simp only [button_events_append, hk.2.2.2, bm, hs.2.2.2, hl.2.2.2, hr.2.2.2, List.append_nil,
      List.nil_append]

/-- One iteration with a connected controller: either `simulate_keyboard` ends
the process before any call, or the iteration returns and each projection of
its calls is the output of one translator on its own inputs. -/
theorem main_connected_projections (pad : XINPUT_GAMEPAD) (point : POINT) (s : Buffers) :
    (simulate_keyboard pad.wButtons s.button_buffer = Run.quick_exit 0 [] ∧
      main_connected pad point s = Run.quick_exit 0 []) ∨
    (∃ bb c1 calls, simulate_keyboard pad.wButtons s.button_buffer = Run.returns bb c1 ∧
      main_connected pad point s = Run.returns
        ⟨bb, (simulate_left_mouse pad.bRightTrigger s.right_trigger_buffer).1,
          (simulate_right_mouse pad.bLeftTrigger s.left_trigger_buffer).1⟩ calls ∧
      pointer_calls calls = simulate_mouse_movement point pad.sThumbRX pad.sThumbRY ∧
      wheel_events calls = events (simulate_mouse_scroll pad.sThumbLX pad.sThumbLY) ∧
      button_events Target.mouse_left calls =
        events (simulate_left_mouse pad.bRightTrigger s.right_trigger_buffer).2 ∧
      button_events Target.mouse_right calls =
        events (simulate_right_mouse pad.bLeftTrigger s.left_trigger_buffer).2) := by
  have hk := simulate_keyboard_projections pad.wButtons s.button_buffer
  cases h : simulate_keyboard pad.wButtons s.button_buffer with
  | quick_exit status c1 =>
    left
    rcases simulate_keyboard_cases pad.wButtons s.button_buffer with
      ⟨_, h1⟩ | ⟨_, _, h1⟩ | ⟨_, _, _, _, _, h1, _, _⟩
    · rw [h1] at h; cases h
    · rw [h1] at h
      cases h
      exact ⟨rfl, main_connected_quick_exit pad point s 0 [] h1⟩
    · rw [h1] at h; cases h
  | returns bb c1 =>
    right
    rw [h] at hk
    exact ⟨bb, c1, _, rfl, main_connected_returns pad point s bb c1 h,
      iteration_calls_projections point _ _ _ _ _ _ _ _ c1 hk⟩

/-- When two iterations see the same button mask and button buffer, either
both end the process before any call or both return, with the projections of
`main_connected_projections`. -/
theorem main_connected_pair (pad pad1 : XINPUT_GAMEPAD) (point point1 : POINT) (s s1 : Buffers)
    (hw : pad1.wButtons = pad.wButtons) (hb : s1.button_buffer = s.button_buffer) :
    ((main_connected pad point s).calls = [] ∧ (main_connected pad1 point1 s1).calls = []) ∨
    (pointer_calls (main_connected pad point s).calls =
        simulate_mouse_movement point pad.sThumbRX pad.sThumbRY ∧
      pointer_calls (main_connected pad1 point1 s1).calls =
        simulate_mouse_movement point1 pad1.sThumbRX pad1.sThumbRY ∧
      wheel_events (main_connected pad point s).calls =
        events (simulate_mouse_scroll pad.sThumbLX pad.sThumbLY) ∧
      wheel_events (main_connected pad1 point1 s1).calls =
        events (simulate_mouse_scroll pad1.sThumbLX pad1.sThumbLY) ∧
      button_events Target.mouse_left (main_connected pad point s).calls =
        events (simulate_left_mouse pad.bRightTrigger s.right_trigger_buffer).2 ∧
      button_events Target.mouse_left (main_connected pad1 point1 s1).calls =
        events (simulate_left_mouse pad1.bRightTrigger s1.right_trigger_buffer).2 ∧
      button_events Target.mouse_right (main_connected pad point s).calls =
        events (simulate_right_mouse pad.bLeftTrigger s.left_trigger_buffer).2 ∧
      button_events Target.mouse_right (main_connected pad1 point1 s1).calls =
        events (simulate_right_mouse pad1.bLeftTrigger s1.left_trigger_buffer).2) := by
  rcases main_connected_projections pad point s with
    ⟨hk, hm⟩ | ⟨bb, c1, calls, hk, hm, p1, p2, p3, p4⟩
  · rcases main_connected_projections pad1 point1 s1 with
      ⟨hk1, hm1⟩ | ⟨bb1, c11, calls1, hk1, _⟩
    · left
      rw [hm, hm1]
      exact ⟨rfl, rfl⟩
    · rw [hw, hb, hk] at hk1
      cases hk1
  · rcases main_connected_projections pad1 point1 s1 with
      ⟨hk1, _⟩ | ⟨bb1, c11, calls1, _, hm1, q1, q2, q3, q4⟩
    · rw [hw, hb, hk] at hk1
      cases hk1
    · right
      rw [hm, hm1]
      exact ⟨p1, q1, p2, q2, p3, q3, p4, q4⟩

/-! ## Theorems on one iteration of `main` -/

/-- C11 (as amended): in one iteration of `main` over a connected controller
snapshot that the escape mask does not end (the iteration returns), the
left-mouse-button events are those `simulate_left_mouse` emits for the right
trigger magnitude and the right-trigger buffer, and the new right-trigger
buffer is the one it returns; the right-mouse-button events and the new
left-trigger buffer are those of `simulate_right_mouse` on the left trigger
magnitude and the left-trigger buffer.  For every snapshot, changing the left
trigger magnitude and buffer leaves the left-button events unchanged, and
changing the right trigger magnitude and buffer leaves the right-button
events unchanged. -/
theorem triggers_drive_crossed_buttons (pad : XINPUT_GAMEPAD) (point : POINT) (s s1 : Buffers)
    (calls : List Call) (h : main_connected pad point s = Run.returns s1 calls) :
    button_events Target.mouse_left calls =
      events (simulate_left_mouse pad.bRightTrigger s.right_trigger_buffer).2 ∧
    s1.right_trigger_buffer = (simulate_left_mouse pad.bRightTrigger s.right_trigger_buffer).1 ∧
    button_events Target.mouse_right calls =
      events (simulate_right_mouse pad.bLeftTrigger s.left_trigger_buffer).2 ∧
    s1.left_trigger_buffer = (simulate_right_mouse pad.bLeftTrigger s.left_trigger_buffer).1 ∧
    (∀ t b : Nat,
      button_events Target.mouse_left
        (main_connected { pad with bLeftTrigger := t } point
          { s with left_trigger_buffer := b }).calls =
      button_events Target.mouse_left (main_connected pad point s).calls) ∧
    (∀ t b : Nat,
      button_events Target.mouse_right
        (main_connected { pad with bRightTrigger := t } point
          { s with right_trigger_buffer := b }).calls =
      button_events Target.mouse_right (main_connected pad point s).calls) := by
  refine ⟨?_, ?_, ?_, ?_, fun t b => ?_, fun t b => ?_⟩
  · rcases main_connected_projections pad point s with ⟨_, hm⟩ | ⟨_, _, _, _, hm, _, _, p3, _⟩
    · rw [hm] at h; cases h
    · rw [hm] at h; cases h; exact p3
  · rcases main_connected_projections pad point s with ⟨_, hm⟩ | ⟨_, _, _, _, hm, _⟩
    · rw [hm] at h; cases h
    · rw [hm] at h; cases h; rfl
  · rcases main_connected_projections pad point s with ⟨_, hm⟩ | ⟨_, _, _, _, hm, _, _, _, p4⟩
    · rw [hm] at h; cases h
    · rw [hm] at h; cases h; exact p4
  · rcases main_connected_projections pad point s with ⟨_, hm⟩ | ⟨_, _, _, _, hm, _⟩
    · rw [hm] at h; cases h
    · rw [hm] at h; cases h; rfl
  · rcases main_connected_pair pad { pad with bLeftTrigger := t } point point s
        { s with left_trigger_buffer := b } rfl rfl with ⟨e, e1⟩ | ⟨_, _, _, _, p, p1, _, _⟩
    · rw [e, e1]
    · rw [p, p1]
  · rcases main_connected_pair pad { pad with bRightTrigger := t } point point s
        { s with right_trigger_buffer := b } rfl rfl with
      ⟨e, e1⟩ | ⟨_, _, _, _, _, _, p, p1⟩
    · rw [e, e1]
    · rw [p, p1]

/-- Witness for `triggers_drive_crossed_buttons`: from the initial buffers, a
snapshot with no button held, both sticks at rest, the right trigger fully
pressed and the left trigger released presses the left mouse button only. -/
theorem triggers_drive_crossed_buttons_witness :
    main_connected ⟨0, 0, 255, 0, 0, 0, 0⟩ ⟨100, 100⟩ Buffers.initial =
      Run.returns ⟨0, 1, 2⟩
        [Call.SendInput [INPUT.zero, INPUT.zero],
         Call.SendInput [⟨INPUT_MOUSE, 0, 0, 0, MOUSEEVENTF_LEFTDOWN⟩, INPUT.zero]] ∧
    button_events Target.mouse_left
        [Call.SendInput [INPUT.zero, INPUT.zero],
         Call.SendInput [⟨INPUT_MOUSE, 0, 0, 0, MOUSEEVENTF_LEFTDOWN⟩, INPUT.zero]] =
      events (simulate_left_mouse 255 2).2 := by
  have hk : simulate_keyboard 0 0 = Run.returns 0 [] := by decide
  have h0 : out_deadzone ((0 : Int) : ℚ) = false := by rw [Int.cast_zero]; exact out_deadzone_zero
  have ha : trigger_activated 255 = true := (trigger_activated_iff 255).mpr (le_refl _)
  have hn : trigger_activated 0 = false := (trigger_activated_eq_false_iff 0).mpr (by decide)
  have hm : main_connected ⟨0, 0, 255, 0, 0, 0, 0⟩ ⟨100, 100⟩ Buffers.initial =
      Run.returns ⟨0, 1, 2⟩
        [Call.SendInput [INPUT.zero, INPUT.zero],
         Call.SendInput [⟨INPUT_MOUSE, 0, 0, 0, MOUSEEVENTF_LEFTDOWN⟩, INPUT.zero]] := by
    rw [main_connected_returns _ _ _ 0 [] hk]
    simp only [simulate_mouse_movement, simulate_mouse_scroll_eq, h0, simulate_left_mouse,
      simulate_right_mouse, ha, hn, Buffers.initial]
    rfl
  exact ⟨hm, (triggers_drive_crossed_buttons _ _ _ _ _ hm).1⟩

/-- C11 as stated fails at the escape mask: two snapshots with the same right
trigger magnitude (255) met with the same right-trigger buffer (2) give
different left-mouse-button events, one press when no button is held and none
when the escape button is held, because the iteration then ends the process
before the trigger translators run. -/
theorem right_trigger_not_alone :
    button_events Target.mouse_left
        (main_connected ⟨0, 0, 255, 0, 0, 0, 0⟩ ⟨100, 100⟩ Buffers.initial).calls =
      [Action.down Target.mouse_left] ∧
    main_connected ⟨16, 0, 255, 0, 0, 0, 0⟩ ⟨100, 100⟩ Buffers.initial = Run.quick_exit 0 [] ∧
    button_events Target.mouse_left
        (main_connected ⟨16, 0, 255, 0, 0, 0, 0⟩ ⟨100, 100⟩ Buffers.initial).calls = [] := by
  have hk : simulate_keyboard 0 0 = Run.returns 0 [] := by decide
  have hk16 : simulate_keyboard 16 0 = Run.quick_exit 0 [] := by decide
  have ha : trigger_activated 255 = true := (trigger_activated_iff 255).mpr (le_refl _)
  have hl : events (simulate_left_mouse 255 2).2 = [Action.down Target.mouse_left] := by
    simp only [simulate_left_mouse, ha, if_true]
    decide
  have h16 : main_connected ⟨16, 0, 255, 0, 0, 0, 0⟩ ⟨100, 100⟩ Buffers.initial =
      Run.quick_exit 0 [] := main_connected_quick_exit _ _ _ 0 [] hk16
  refine ⟨?_, h16, by rw [h16]; rfl⟩
  rcases main_connected_projections ⟨0, 0, 255, 0, 0, 0, 0⟩ ⟨100, 100⟩ Buffers.initial with
    ⟨hq, _⟩ | ⟨_, _, _, _, hm, _, _, p3, _⟩
  · rw [show simulate_keyboard (⟨0, 0, 255, 0, 0, 0, 0⟩ : XINPUT_GAMEPAD).wButtons
      Buffers.initial.button_buffer = Run.returns 0 [] from hk] at hq
    cases hq
  · rw [hm]
    exact p3.trans hl

/-- C12: in one iteration of `main` over a connected controller snapshot,
changing the left-stick values never changes the `SetCursorPos` calls and
changing the right-stick values never changes the wheel events; in an
iteration that returns, the pointer calls are those of
`simulate_mouse_movement` on the right-stick axes and the wheel events those
of `simulate_mouse_scroll` on the left-stick axes. -/
theorem sticks_do_not_interfere (pad : XINPUT_GAMEPAD) (point : POINT) (s : Buffers)
    (a b : Int) :
    pointer_calls (main_connected { pad with sThumbLX := a, sThumbLY := b } point s).calls =
      pointer_calls (main_connected pad point s).calls ∧
    wheel_events (main_connected { pad with sThumbRX := a, sThumbRY := b } point s).calls =
      wheel_events (main_connected pad point s).calls ∧
    (∀ (s1 : Buffers) (calls : List Call), main_connected pad point s = Run.returns s1 calls →
      pointer_calls calls = simulate_mouse_movement point pad.sThumbRX pad.sThumbRY ∧
      wheel_events calls = events (simulate_mouse_scroll pad.sThumbLX pad.sThumbLY)) := by
  refine ⟨?_, ?_, fun s1 calls h => ?_⟩
  · rcases main_connected_pair pad { pad with sThumbLX := a, sThumbLY := b } point point s s
        rfl rfl with ⟨e, e1⟩ | ⟨p, p1, _⟩
    · rw [e, e1]
    · rw [p, p1]
  · rcases main_connected_pair pad { pad with sThumbRX := a, sThumbRY := b } point point s s
        rfl rfl with ⟨e, e1⟩ | ⟨_, _, p, p1, _⟩
    · rw [e, e1]
    · rw [p, p1]
  · rcases main_connected_projections pad point s with ⟨_, hm⟩ | ⟨_, _, _, _, hm, p1, p2, _⟩
    · rw [hm] at h; cases h
    · rw [hm] at h; cases h; exact ⟨p1, p2⟩

/-- C13: the keymap the program prints assigns mouse movement to the left
stick and mouse scroll to the right stick, but `main` passes the right-stick
axes to `simulate_mouse_movement` and the left-stick axes to
`simulate_mouse_scroll`: with only the left stick deflected (x = 32767) the
iteration makes no `SetCursorPos` call and sends a wheel event of 79 ticks,
and with only the right stick deflected it moves the pointer (from x = 100 to
x = 114) and sends no wheel event. -/
theorem keymap_sticks_swapped :
    Console.cout "  |          Left Stick   ---   Mouse Movement      |  " ∈ print_keymap ∧
    Console.cout "  |         Right Stick   ---   Mouse Scroll        |  " ∈ print_keymap ∧
    pointer_calls
        (main_connected ⟨0, 0, 0, 32767, 0, 0, 0⟩ ⟨100, 100⟩ Buffers.initial).calls = [] ∧
    wheel_events
        (main_connected ⟨0, 0, 0, 32767, 0, 0, 0⟩ ⟨100, 100⟩ Buffers.initial).calls =
      [Action.wheel 79] ∧
    pointer_calls
        (main_connected ⟨0, 0, 0, 0, 0, 32767, 0⟩ ⟨100, 100⟩ Buffers.initial).calls =
      [Call.SetCursorPos 114 100] ∧
    wheel_events
        (main_connected ⟨0, 0, 0, 0, 0, 32767, 0⟩ ⟨100, 100⟩ Buffers.initial).calls = [] := by
  have hk : simulate_keyboard 0 0 = Run.returns 0 [] := by decide
  have h0 : out_deadzone ((0 : Int) : ℚ) = false := by rw [Int.cast_zero]; exact out_deadzone_zero
  have h1 : out_deadzone ((32767 : Int) : ℚ) = true := (out_deadzone_int 32767).mpr (by decide)
  have mv0 : simulate_mouse_movement ⟨100, 100⟩ ((0 : Int) : ℚ) ((0 : Int) : ℚ) = [] := by
    simp only [simulate_mouse_movement, h0]
    rfl
  have mv1 : simulate_mouse_movement ⟨100, 100⟩ ((32767 : Int) : ℚ) ((0 : Int) : ℚ) =
      [Call.SetCursorPos 114 100] := by
    rw [simulate_mouse_movement_x_only _ _ _ h1 h0]
    decide
  have sc0 : events (simulate_mouse_scroll ((0 : Int) : ℚ) ((0 : Int) : ℚ)) = [] := by
    rw [simulate_mouse_scroll_eq, h0]
    rfl
  have sc1 : events (simulate_mouse_scroll ((32767 : Int) : ℚ) ((0 : Int) : ℚ)) =
      [Action.wheel 79] := by
    rw [simulate_mouse_scroll_eq, h0, h1, if_pos rfl, scroll_ticks_eq]
    simp only [Bool.false_eq_true, if_false, events, batch_actions, wheel_entry_actions,
      zero_entry_actions, List.append_nil]
    decide
  have left := main_connected_projections ⟨0, 0, 0, 32767, 0, 0, 0⟩ ⟨100, 100⟩ Buffers.initial
  have right := main_connected_projections ⟨0, 0, 0, 0, 0, 32767, 0⟩ ⟨100, 100⟩ Buffers.initial
  refine ⟨by decide, by decide, ?_, ?_, ?_, ?_⟩
  · rcases left with ⟨hq, _⟩ | ⟨_, _, _, _, hm, p1, _⟩
    · exact absurd (hk.symm.trans hq) (by simp)
    · rw [hm]; exact p1.trans mv0
  · rcases left with ⟨hq, _⟩ | ⟨_, _, _, _, hm, _, p2, _⟩
    · exact absurd (hk.symm.trans hq) (by simp)
    · rw [hm]; exact p2.trans sc1
  · rcases right with ⟨hq, _⟩ | ⟨_, _, _, _, hm, p1, _⟩
    · exact absurd (hk.symm.trans hq) (by simp)
    · rw [hm]; exact p1.trans mv1
  · rcases right with ⟨hq, _⟩ | ⟨_, _, _, _, hm, _, p2, _⟩
    · exact absurd (hk.symm.trans hq) (by simp)
    · rw [hm]; exact p2.trans sc0

/-! ## Lemmas and theorems on the console and the loop -/

theorem process_command_exit :
    process_command "exit" = Ran.quick_exit 0 [Console.cout "", Console.endl] := by
  decide

theorem process_command_returns (command : String) (h : command ≠ "exit") :
    ∃ c, process_command command = Ran.returns () c := by
  unfold process_command
  dsimp only
  split_ifs
  all_goals exact ⟨_, rfl⟩

theorem process_command_quick_exit (command : String) (status : Int) (c : List Console)
    (h : process_command command = Ran.quick_exit status c) : command = "exit" := by
  by_contra hne
  obtain ⟨c1, h1⟩ := process_command_returns command hne
  rw [h1] at h
  cases h

theorem main_command_exit :
    main_command "exit" =
      Ran.quick_exit 0 [Console.system_cls, Console.cout "", Console.endl] := by
  simp only [main_command, process_command_exit]
  rfl

theorem main_command_returns (command : String) (h : command ≠ "exit") :
    ∃ c, main_command command = Ran.returns false c := by
  obtain ⟨c1, h1⟩ := process_command_returns command h
  simp only [main_command, h1]
  exact ⟨_, rfl⟩

/-- The status of every `quick_exit` of `main_command` is 0. -/
theorem main_command_status (command : String) (status : Int) (c : List Console)
    (h : main_command command = Ran.quick_exit status c) : status = 0 := by
  by_cases he : command = "exit"
  · rw [he, main_command_exit] at h
    cases h
    rfl
  · obtain ⟨c1, h1⟩ := main_command_returns command he
    rw [h1] at h
    cases h

/-- The command block of one iteration: skipped, or run with a result. -/
theorem main_iteration_command (i : LoopInput) (s : LoopState) :
    (if (main_f1 i.f1_down s.is_command_mode).1 = true then main_command i.command
      else Ran.returns (main_f1 i.f1_down s.is_command_mode).1 []) =
        Ran.quick_exit 0 [Console.system_cls, Console.cout "", Console.endl] ∨
    ∃ c, (if (main_f1 i.f1_down s.is_command_mode).1 = true then main_command i.command
      else Ran.returns (main_f1 i.f1_down s.is_command_mode).1 []) = Ran.returns false c := by
  cases hm : (main_f1 i.f1_down s.is_command_mode).1
  · right
    exact ⟨[], by simp⟩
  · by_cases he : i.command = "exit"
    · left
      rw [if_pos rfl, he, main_command_exit]
    · right
      obtain ⟨c, hc⟩ := main_command_returns i.command he
      exact ⟨c, by rw [if_pos rfl, hc]⟩

/-- How one iteration of the loop can end. -/
theorem main_iteration_cases (i : LoopInput) (s : LoopState) :
    (∃ console, main_iteration i s = Step.quick_exit 0 console [] ∧
      (main_f1 i.f1_down s.is_command_mode).1 = true ∧ i.command = "exit") ∨
    (∃ console pad, i.poll = some pad ∧ main_iteration i s = Step.quick_exit 0 console [] ∧
      main_connected pad i.point s.buffers = Run.quick_exit 0 []) ∨
    (∃ console pad buffers calls, i.poll = some pad ∧
      main_iteration i s = Step.continues ⟨buffers, false⟩ console calls ∧
      main_connected pad i.point s.buffers = Run.returns buffers calls) ∨
    (∃ console, i.poll = none ∧ main_iteration i s = Step.main_return 0 s.buffers console []) := by
  unfold main_iteration
  dsimp only
  rcases main_iteration_command i s with h | ⟨c, h⟩
  · left
    rw [h]
    refine ⟨_, rfl, ?_⟩
    cases hm : (main_f1 i.f1_down s.is_command_mode).1
    · rw [hm] at h
      simp at h
    · refine ⟨rfl, ?_⟩
      rw [hm, if_pos rfl] at h
      exact process_command_quick_exit i.command 0 [Console.cout "", Console.endl]
        (by
          cases hp : process_command i.command with
          | returns a c1 => simp only [main_command, hp] at h; cases h
          | quick_exit st c1 =>
            simp only [main_command, hp] at h
            cases h
            rfl)
  · right
    rw [h]
    cases hp : i.poll with
    | none =>
      right; right
      exact ⟨_, rfl, rfl⟩
    | some pad =>
      dsimp only
      rcases main_connected_projections pad i.point s.buffers with
        ⟨_, hm⟩ | ⟨bb, c1, calls, _, hm, _⟩
      · left
        rw [hm]
        exact ⟨_, pad, rfl, rfl, hm⟩
      · right; left
        rw [hm]
        exact ⟨_, pad, _, calls, rfl, rfl, hm⟩

theorem main_f1_mode (f1_down is_command_mode : Bool) :
    (main_f1 f1_down is_command_mode).1 = (f1_down || is_command_mode) := by
  cases f1_down <;> rfl

theorem main_loop_status (inputs : List LoopInput) :
    ∀ (s : LoopState) (code : Int), main_loop inputs s = some code → code = 0 := by
  induction inputs with
  | nil => intro s code h; cases h
  | cons i rest ih =>
    intro s code h
    unfold main_loop at h
    rcases main_iteration_cases i s with ⟨c, hi, _⟩ | ⟨c, pad, _, hi, _⟩ |
      ⟨c, pad, bufs, calls, _, hi, _⟩ | ⟨c, _, hi⟩
    · rw [hi] at h; cases h; rfl
    · rw [hi] at h; cases h; rfl
    · rw [hi] at h; exact ih _ _ h
    · rw [hi] at h; cases h; rfl

/-- The command "exit" read in command mode ends the iteration in `quick_exit(0)`. -/
theorem main_iteration_exit_command (i : LoopInput) (s : LoopState)
    (hmode : i.f1_down = true ∨ s.is_command_mode = true) (hexit : i.command = "exit") :
    main_iteration i s = Step.quick_exit 0
      ((main_f1 i.f1_down s.is_command_mode).2 ++
        [Console.system_cls, Console.cout "", Console.endl]) [] := by
  have hm : (main_f1 i.f1_down s.is_command_mode).1 = true := by
    rw [main_f1_mode]
    rcases hmode with h | h <;> simp [h]
  unfold main_iteration
  dsimp only
  rw [hm, if_pos rfl, hexit, main_command_exit]

/-- C14: on the command `print_spec` the command block returns with
`is_command_mode` false (idle), but the values it prints are three: the stick
deadzone, the mouse-move sensitivity and the scroll sensitivity; the trigger
activation threshold `trigger_sensitivity` is not printed. -/
theorem print_spec_prints_three_values :
    process_command "print_spec" =
      Ran.returns () ([Console.cout "", Console.endl] ++ print_spec ++
        [Console.cout "", Console.endl]) ∧
    (∃ c, main_command "print_spec" = Ran.returns false c) ∧
    printed_doubles (main_command "print_spec").console =
      [analog_stick_deadzone, mouse_move_sensitivity, mouse_scroll_sensitivity] ∧
    trigger_sensitivity ∉ printed_doubles (main_command "print_spec").console := by
  have hp : process_command "print_spec" =
      Ran.returns () ([Console.cout "", Console.endl] ++ print_spec ++
        [Console.cout "", Console.endl]) := by
    simp [process_command]
  have hd : printed_doubles (main_command "print_spec").console =
      [analog_stick_deadzone, mouse_move_sensitivity, mouse_scroll_sensitivity] := by
    simp only [main_command, hp]
    rfl
  refine ⟨hp, main_command_returns _ (by decide), hd, ?_⟩
  rw [hd]
  simp only [List.mem_cons, List.mem_singleton, List.mem_nil_iff, or_false, not_or]
  unfold trigger_sensitivity analog_stick_deadzone mouse_move_sensitivity mouse_scroll_sensitivity
  norm_num

/-- C15 (as amended): for every command string read in command mode other
than exactly "exit" the command block consumes that command and returns with
`is_command_mode` false, the process still running; an unrecognized string
prints the line "  Command not found.  " between two blank lines;
`exit_command` prints only the blank line that `process_command` writes
before it looks at the command; only the string "exit" ends the process, with
status 0, and then no later iteration runs.  Every iteration that goes on
leaves `is_command_mode` false. -/
theorem command_mode_consumes_one_command (command : String) :
    (command ≠ "exit" → ∃ c, main_command command = Ran.returns false c) ∧
    (command = "exit" →
      main_command command =
        Ran.quick_exit 0 [Console.system_cls, Console.cout "", Console.endl]) ∧
    ((∃ status c, main_command command = Ran.quick_exit status c) ↔ command = "exit") ∧
    (command ∉ ["help", "print_keymap", "print_spec", "exit_command", "exit"] →
      process_command command = Ran.returns ()
        [Console.cout "", Console.endl, Console.cout "  Command not found.  ", Console.endl,
         Console.cout "", Console.endl]) ∧
    process_command "exit_command" = Ran.returns () [Console.cout "", Console.endl] ∧
    (∀ (i : LoopInput) (s s1 : LoopState) (console : List Console) (calls : List Call),
      main_iteration i s = Step.continues s1 console calls → s1.is_command_mode = false) ∧
    (∀ (i : LoopInput) (s : LoopState) (rest : List LoopInput),
      (i.f1_down = true ∨ s.is_command_mode = true) → i.command = "exit" →
      main_loop (i :: rest) s = some 0) := by
  refine ⟨main_command_returns command, fun h => by rw [h]; exact main_command_exit, ?_, ?_,
    by decide, ?_, ?_⟩
  · constructor
    · rintro ⟨status, c, h⟩
      by_contra hne
      obtain ⟨c1, h1⟩ := main_command_returns command hne
      rw [h1] at h
      cases h
    · intro h
      exact ⟨0, _, by rw [h]; exact main_command_exit⟩
  · intro h
    simp only [List.mem_cons, List.mem_singleton, List.mem_nil_iff, or_false, not_or] at h
    obtain ⟨h1, h2, h3, h4, h5⟩ := h
    unfold process_command
    simp only [if_neg h1, if_neg h2, if_neg h3, if_neg h4, if_neg h5]
    rfl
  · intro i s s1 console calls h
    rcases main_iteration_cases i s with ⟨c, hi, _⟩ | ⟨c, pad, _, hi, _⟩ |
      ⟨c, pad, bufs, cs, _, hi, _⟩ | ⟨c, _, hi⟩
    · rw [hi] at h; cases h
    · rw [hi] at h; cases h
    · rw [hi] at h; cases h; rfl
    · rw [hi] at h; cases h
  · intro i s rest hmode hexit
    unfold main_loop
    rw [main_iteration_exit_command i s hmode hexit]

/-- Witness for `command_mode_consumes_one_command`: the unrecognized string
"abc" is answered with the error line and command mode is left. -/
theorem command_mode_consumes_one_command_witness :
    (∃ c, main_command "abc" = Ran.returns false c) ∧
    process_command "abc" = Ran.returns ()
      [Console.cout "", Console.endl, Console.cout "  Command not found.  ", Console.endl,
       Console.cout "", Console.endl] :=
  ⟨(command_mode_consumes_one_command "abc").1 (by decide),
   (command_mode_consumes_one_command "abc").2.2.2.1 (by decide)⟩

/-- C15 as stated fails for `exit_command`: `process_command` writes an empty
string and `std::endl`, a blank line, before it returns, so its console
output is not empty. -/
theorem exit_command_prints_blank_line :
    process_command "exit_command" = Ran.returns () [Console.cout "", Console.endl] ∧
    (process_command "exit_command").console ≠ [] := by
  decide

/-- C16: every way the program ends yields exit status 0: `quick_exit(0)` on
the escape mask, `quick_exit(0)` on the command "exit", and `return 0` after
a failed controller poll.  On a failed poll the iteration makes no input call
(no translator runs), leaves the buffers as they were, and the loop is left:
no later iteration runs. -/
theorem every_termination_exits_zero :
    (∀ (i : LoopInput) (s : LoopState) (status : Int) (console : List Console)
        (calls : List Call),
      main_iteration i s = Step.quick_exit status console calls → status = 0) ∧
    (∀ (i : LoopInput) (s : LoopState) (status : Int) (buffers : Buffers)
        (console : List Console) (calls : List Call),
      main_iteration i s = Step.main_return status buffers console calls →
      status = 0 ∧ i.poll = none ∧ buffers = s.buffers ∧ calls = []) ∧
    (∀ (inputs : List LoopInput) (s : LoopState) (code : Int),
      main_loop inputs s = some code → code = 0) ∧
    (∀ (i : LoopInput) (s : LoopState) (pad : XINPUT_GAMEPAD),
      i.poll = some pad → pad.wButtons = GAMEPAD_BUTTON.ESCAPE →
      s.buffers.button_buffer ≠ GAMEPAD_BUTTON.ESCAPE →
      ¬ ((i.f1_down = true ∨ s.is_command_mode = true) ∧ i.command = "exit") →
      ∃ console, main_iteration i s = Step.quick_exit 0 console []) ∧
    (∀ (i : LoopInput) (s : LoopState),
      (i.f1_down = true ∨ s.is_command_mode = true) → i.command = "exit" →
      ∃ console, main_iteration i s = Step.quick_exit 0 console []) ∧
    (∀ (i : LoopInput) (s : LoopState), i.poll = none →
      ¬ ((i.f1_down = true ∨ s.is_command_mode = true) ∧ i.command = "exit") →
      (∃ console, main_iteration i s = Step.main_return 0 s.buffers console []) ∧
      ∀ rest, main_loop (i :: rest) s = some 0) := by
  have mode : ∀ (i : LoopInput) (s : LoopState),
      (main_f1 i.f1_down s.is_command_mode).1 = true →
      (i.f1_down = true ∨ s.is_command_mode = true) := by
    intro i s h
    rw [main_f1_mode, Bool.or_eq_true] at h
    exact h
  refine ⟨?_, ?_, fun inputs => main_loop_status inputs, ?_, ?_, ?_⟩
  · intro i s status console calls h
    rcases main_iteration_cases i s with ⟨c, hi, _⟩ | ⟨c, pad, _, hi, _⟩ |
      ⟨c, pad, bufs, cs, _, hi, _⟩ | ⟨c, _, hi⟩
    · rw [hi] at h; cases h; rfl
    · rw [hi] at h; cases h; rfl
    · rw [hi] at h; cases h
    · rw [hi] at h; cases h
  · intro i s status buffers console calls h
    rcases main_iteration_cases i s with ⟨c, hi, _⟩ | ⟨c, pad, _, hi, _⟩ |
      ⟨c, pad, bufs, cs, _, hi, _⟩ | ⟨c, hp, hi⟩
    · rw [hi] at h; cases h
    · rw [hi] at h; cases h
    · rw [hi] at h; cases h
    · rw [hi] at h; cases h; exact ⟨rfl, hp, rfl, rfl⟩
  · intro i s pad hp hesc hbuf hcmd
    have hk : simulate_keyboard pad.wButtons s.buffers.button_buffer = Run.quick_exit 0 [] := by
      rw [hesc]
      exact simulate_keyboard_escape _ hbuf
    have hq := main_connected_quick_exit pad i.point s.buffers 0 [] hk
    rcases main_iteration_cases i s with ⟨c, _, hm, he⟩ | ⟨c, pad1, _, hi, _⟩ |
      ⟨c, pad1, bufs, cs, hp1, _, hr⟩ | ⟨c, hp1, _⟩
    · exact absurd ⟨mode i s hm, he⟩ hcmd
    · exact ⟨c, hi⟩
    · rw [hp] at hp1
      cases hp1
      rw [hq] at hr
      cases hr
    · rw [hp] at hp1
      cases hp1
  · intro i s hmode hexit
    exact ⟨_, main_iteration_exit_command i s hmode hexit⟩
  · intro i s hp hcmd
    rcases main_iteration_cases i s with ⟨c, _, hm, he⟩ | ⟨c, pad, hp1, _⟩ |
      ⟨c, pad, bufs, cs, hp1, _⟩ | ⟨c, _, hi⟩
    · exact absurd ⟨mode i s hm, he⟩ hcmd
    · rw [hp] at hp1; cases hp1
    · rw [hp] at hp1; cases hp1
    · refine ⟨⟨c, hi⟩, fun rest => ?_⟩
      unfold main_loop
      rw [hi]

/-- Witness for `every_termination_exits_zero`: when the first poll fails the
program ends with status 0 whatever inputs would follow, and the command
"exit" typed after F1 ends it with status 0. -/
theorem every_termination_exits_zero_witness :
    main_loop [⟨false, "", none, ⟨0, 0⟩⟩, ⟨true, "help", none, ⟨0, 0⟩⟩] LoopState.initial =
      some 0 ∧
    ∃ console, main_iteration ⟨true, "exit", none, ⟨0, 0⟩⟩ LoopState.initial =
      Step.quick_exit 0 console [] :=
  ⟨(every_termination_exits_zero.2.2.2.2.2 ⟨false, "", none, ⟨0, 0⟩⟩ LoopState.initial rfl
      (by decide)).2 _,
   every_termination_exits_zero.2.2.2.2.1 ⟨true, "exit", none, ⟨0, 0⟩⟩ LoopState.initial
      (Or.inl rfl) rfl⟩

end ControllerX
